import Mathlib

/-!
Verification of factomd: wire codec of `EndOfMinuteEntry` and `RequestBlock`, and `State.Init`

A shallow embedding of

* `common/adminBlock/EntryEndOfMinute.go`
* `common/messages/requestBlock.go`
* `state/state.go` (`LoadConfig`, `Init`, `InitLevelDB`, `InitBoltDB`, `InitMapDB`,
  `LoadDBState`, `GetNetworkNumber`, `GetFactoshisPerEC`)

Go values are embedded as follows.

* `byte` is `Fin 256`.
* `[]byte` is `Option (List Byte)`: `none` is the nil slice, `some l` a non-nil
  slice of contents `l` (so `some []` is the empty, non-nil slice).
* `error` is `Option GoError`, `none` being the nil error.
* A run-time panic is explicit: a function body either returns or panics, and
  the deferred `recover()` of the two decoders is a function on that outcome.
* Constants of package `constants` and the collaborators of other packages
  (the `Timestamp` codec, `primitives.Sha`, the database constructors, the
  block store, `util.ReadConfig`) are parameters.
-/

namespace Factomd

/-! ## Go values -/

abbrev Byte := Fin 256

/-- Go `[]byte`: `none` is nil, `some l` is a non-nil slice holding `l`. -/
abbrev Slice := Option (List Byte)

/-- Contents of a slice; the nil slice has none. -/
def Slice.toList : Slice → List Byte
  | none => []
  | some l => l

/-- Go `len(s)`. -/
def Slice.len (s : Slice) : Nat := (Slice.toList s).length

/-- The value handed to `recover()` by a panic. -/
inductive PanicValue where
  /-- Run-time error of `s[i]` with `i ≥ len(s)`. -/
  | indexOutOfRange (index len : Nat)
  /-- Run-time error of `s[i:]` with `i > len(s)`. -/
  | sliceBoundsOutOfRange (low len : Nat)
  /-- Run-time error of a nil pointer dereference. -/
  | nilDereference
  /-- An explicit `panic("...")`. -/
  | message (msg : String)
  deriving DecidableEq, Repr

/-- Go `error` values that occur in the embedded code. -/
inductive GoError where
  /-- The value of `fmt.Errorf(msg)` for a constant `msg`. -/
  | errorf (msg : String)
  /-- The value of `fmt.Errorf(pfx + "%v", r)` built from a recovered panic `r`. -/
  | recovered (pfx : String) (r : PanicValue)
  /-- An error produced by a collaborator outside the embedded files. -/
  | external (msg : String)
  deriving DecidableEq, Repr

/-- Go `s[i]`: the byte, or the run-time panic. -/
def Slice.index (s : Slice) (i : Nat) : Except PanicValue Byte :=
  match (Slice.toList s)[i]? with
  | some b => .ok b
  | none => .error (.indexOutOfRange i (Slice.len s))

/-- Go `s[i:]`: the sub-slice, or the run-time panic. Slicing the nil slice
at `0` gives nil; any other successful slicing gives a non-nil slice. -/
def Slice.sliceFrom (s : Slice) (i : Nat) : Except PanicValue Slice :=
  if Slice.len s < i then .error (.sliceBoundsOutOfRange i (Slice.len s))
  else match s with
    | none => .ok none
    | some l => .ok (some (l.drop i))

/-- Outcome of a call whose receiver (or state) is `σ` and whose result is `α`:
a normal return, or a panic leaving the state as it was when the panic rose. -/
inductive Call (σ α : Type) where
  | ret (s : σ) (a : α)
  | panic (s : σ) (r : PanicValue)

/-- The state a call leaves behind, whether it returned or panicked. -/
def Call.state {σ α : Type} : Call σ α → σ
  | .ret s _ => s
  | .panic s _ => s

/-- Whether the call ended in a panic. -/
def Call.panicked {σ α : Type} : Call σ α → Bool
  | .ret _ _ => false
  | .panic _ _ => true

/-- Outcome of the body of a decoder `func (x *T) UnmarshalBinaryData(data []byte)
(newData []byte, err error)` before its deferred function runs: the receiver
and the two named results, and the panic value if the body panicked. -/
inductive Body (σ : Type) where
  | returned (recv : σ) (newData : Slice) (err : Option GoError)
  | panicked (recv : σ) (newData : Slice) (err : Option GoError) (r : PanicValue)

/-- What the caller of a decoder observes: the receiver after the call and the
two results. -/
structure Decoded (σ : Type) where
  recv : σ
  newData : Slice
  err : Option GoError

/-- The deferred function of both decoders:
`if r := recover(); r != nil { err = fmt.Errorf(pfx + "%v", r) }`. -/
def recoverInto {σ : Type} (pfx : String) : Body σ → Decoded σ
  | .returned recv newData err => ⟨recv, newData, err⟩
  | .panicked recv newData _ r => ⟨recv, newData, some (.recovered pfx r)⟩

/-! ## `adminBlock.EndOfMinuteEntry` -/

structure EndOfMinuteEntry where
  MinuteNumber : Byte
  deriving DecidableEq, Repr

/-- Go `func (m *EndOfMinuteEntry) Type() byte`, the constant
`constants.TYPE_MINUTE_NUM` being a parameter. -/
def EndOfMinuteEntry.Type' (TYPE_MINUTE_NUM : Byte) (_m : EndOfMinuteEntry) : Byte :=
  TYPE_MINUTE_NUM

/-- Go `func (e *EndOfMinuteEntry) MarshalBinary() (data []byte, err error)`:
two `buf.Write` calls on an empty `bytes.Buffer`, then `buf.Bytes(), nil`. -/
def EndOfMinuteEntry.MarshalBinary (TYPE_MINUTE_NUM : Byte) (e : EndOfMinuteEntry) :
    Slice × Option GoError :=
  let buf : List Byte := []
  let buf := buf ++ [e.Type' TYPE_MINUTE_NUM]
  let buf := buf ++ [e.MinuteNumber]
  (some buf, none)

/-- Body of `func (e *EndOfMinuteEntry) UnmarshalBinaryData(data []byte)`,
lines 43 to 51. -/
def EndOfMinuteEntry.UnmarshalBinaryDataBody (TYPE_MINUTE_NUM : Byte)
    (e : EndOfMinuteEntry) (data : Slice) : Body EndOfMinuteEntry :=
  let newData := data
  match Slice.index newData 0 with
  | .error r => .panicked e newData none r
  | .ok b0 =>
    if b0 ≠ e.Type' TYPE_MINUTE_NUM then
      .returned e none (some (.errorf "Invalid Entry type"))
    else
      match Slice.sliceFrom newData 1 with
      | .error r => .panicked e newData none r
      | .ok newData =>
        -- `e.MinuteNumber, newData = newData[0], newData[1:]`: both right-hand
        -- sides are evaluated before either assignment
        match Slice.index newData 0 with
        | .error r => .panicked e newData none r
        | .ok b1 =>
          match Slice.sliceFrom newData 1 with
          | .error r => .panicked e newData none r
          | .ok rest => .returned { e with MinuteNumber := b1 } rest none

/-- Go `func (e *EndOfMinuteEntry) UnmarshalBinaryData(data []byte)
(newData []byte, err error)`: the body under its deferred `recover`. -/
def EndOfMinuteEntry.UnmarshalBinaryData (TYPE_MINUTE_NUM : Byte)
    (e : EndOfMinuteEntry) (data : Slice) : Decoded EndOfMinuteEntry :=
  recoverInto "Error unmarshalling: "
    (EndOfMinuteEntry.UnmarshalBinaryDataBody TYPE_MINUTE_NUM e data)

/-- Go `func (e *EndOfMinuteEntry) UnmarshalBinary(data []byte) (err error)`. -/
def EndOfMinuteEntry.UnmarshalBinary (TYPE_MINUTE_NUM : Byte)
    (e : EndOfMinuteEntry) (data : Slice) : EndOfMinuteEntry × Option GoError :=
  let r := EndOfMinuteEntry.UnmarshalBinaryData TYPE_MINUTE_NUM e data
  (r.recv, r.err)

/-! ## `messages.RequestBlock` -/

/-- The codec of `interfaces.Timestamp`, which lives outside the embedded files.
`MarshalBinary` returns the bytes and the error; `UnmarshalBinaryData` acts on
the timestamp it is called on and may panic. -/
structure TimestampCodec (T : Type) where
  MarshalBinary : T → Slice × Option GoError
  UnmarshalBinaryData : T → Slice → Call T (Slice × Option GoError)

/-- Go `type RequestBlock struct`: the embedded `MessageBase` contributes its
`MsgHash` field; `hash` is the unexported cache. `H` is the type of hash values,
`none` being a nil `interfaces.IHash`. -/
structure RequestBlock (T H : Type) where
  MsgHash : Option H
  Timestamp : T
  hash : Option H

/-- Go `func (m *RequestBlock) Type() byte`, the constant
`constants.REQUEST_BLOCK_MSG` being a parameter. -/
def RequestBlock.Type' {T H : Type} (REQUEST_BLOCK_MSG : Byte) (_m : RequestBlock T H) : Byte :=
  REQUEST_BLOCK_MSG

/-- Go `func (a *RequestBlock) IsSameAs(b *RequestBlock) bool`; `b = none` is
the nil pointer. -/
def RequestBlock.IsSameAs {T H : Type} [DecidableEq T] (a : RequestBlock T H)
    (b : Option (RequestBlock T H)) : Bool :=
  match b with
  | none => false
  | some b => if a.Timestamp ≠ b.Timestamp then false else true

/-- Go `func (m *RequestBlock) GetTimestamp() interfaces.Timestamp`. -/
def RequestBlock.GetTimestamp {T H : Type} (m : RequestBlock T H) : T := m.Timestamp

/-- Go `func (m *RequestBlock) MarshalForSignature() (data []byte, err error)`.
`primitives.Buffer` is a byte buffer: `Write` appends, `DeepCopyBytes` returns
a copy of what was written. -/
def RequestBlock.MarshalForSignature {T H : Type} (REQUEST_BLOCK_MSG : Byte)
    (codec : TimestampCodec T) (m : RequestBlock T H) : Slice × Option GoError :=
  let buf : List Byte := []
  let buf := buf ++ [m.Type' REQUEST_BLOCK_MSG]
  match codec.MarshalBinary m.Timestamp with
  | (_, some err) => (none, some err)
  | (d, none) =>
    let buf := buf ++ Slice.toList d
    (some buf, none)

/-- Go `func (m *RequestBlock) MarshalBinary() (data []byte, err error)`. -/
def RequestBlock.MarshalBinary {T H : Type} (REQUEST_BLOCK_MSG : Byte)
    (codec : TimestampCodec T) (m : RequestBlock T H) : Slice × Option GoError :=
  m.MarshalForSignature REQUEST_BLOCK_MSG codec

/-- Body of `func (m *RequestBlock) UnmarshalBinaryData(data []byte)`,
lines 87 to 100. -/
def RequestBlock.UnmarshalBinaryDataBody {T H : Type} (REQUEST_BLOCK_MSG : Byte)
    (codec : TimestampCodec T) (m : RequestBlock T H) (data : Slice) :
    Body (RequestBlock T H) :=
  let newData := data
  match Slice.index newData 0 with
  | .error r => .panicked m newData none r
  | .ok b0 =>
    if b0 ≠ m.Type' REQUEST_BLOCK_MSG then
      .returned m none (some (.errorf "Invalid Message type"))
    else
      match Slice.sliceFrom newData 1 with
      | .error r => .panicked m newData none r
      | .ok newData =>
        match codec.UnmarshalBinaryData m.Timestamp newData with
        | .panic t r => .panicked { m with Timestamp := t } newData none r
        | .ret t (_, some err) => .returned { m with Timestamp := t } none (some err)
        | .ret t (newData, none) => .returned { m with Timestamp := t } newData none

/-- Go `func (m *RequestBlock) UnmarshalBinaryData(data []byte)
(newData []byte, err error)`: the body under its deferred `recover`. -/
def RequestBlock.UnmarshalBinaryData {T H : Type} (REQUEST_BLOCK_MSG : Byte)
    (codec : TimestampCodec T) (m : RequestBlock T H) (data : Slice) :
    Decoded (RequestBlock T H) :=
  recoverInto "Error unmarshalling RequestBlock: "
    (RequestBlock.UnmarshalBinaryDataBody REQUEST_BLOCK_MSG codec m data)

/-- Go `func (m *RequestBlock) UnmarshalBinary(data []byte) error`. -/
def RequestBlock.UnmarshalBinary {T H : Type} (REQUEST_BLOCK_MSG : Byte)
    (codec : TimestampCodec T) (m : RequestBlock T H) (data : Slice) :
    RequestBlock T H × Option GoError :=
  let r := RequestBlock.UnmarshalBinaryData REQUEST_BLOCK_MSG codec m data
  (r.recv, r.err)

/-- A fixed-width timestamp codec of the kind the wire format names: a
timestamp below `2 ^ 48` is written as six bytes, most significant first, and
read back from the first six bytes of the input. -/
def sixByteTimestamp : TimestampCodec (Fin (2 ^ 48)) where
  MarshalBinary t :=
    (some [⟨t.val / 2 ^ 40 % 256, Nat.mod_lt _ (by decide)⟩,
           ⟨t.val / 2 ^ 32 % 256, Nat.mod_lt _ (by decide)⟩,
           ⟨t.val / 2 ^ 24 % 256, Nat.mod_lt _ (by decide)⟩,
           ⟨t.val / 2 ^ 16 % 256, Nat.mod_lt _ (by decide)⟩,
           ⟨t.val / 2 ^ 8 % 256, Nat.mod_lt _ (by decide)⟩,
           ⟨t.val % 256, Nat.mod_lt _ (by decide)⟩], none)
  UnmarshalBinaryData t data :=
    match data with
    | some (b0 :: b1 :: b2 :: b3 :: b4 :: b5 :: rest) =>
      .ret (Fin.ofNat (b0.val * 2 ^ 40 + b1.val * 2 ^ 32 + b2.val * 2 ^ 24
              + b3.val * 2 ^ 16 + b4.val * 2 ^ 8 + b5.val))
        (some rest, none)
    | _ => .ret t (none, some (.external "Not enough data to unmarshal"))

/-! ## `state.State` -/

/-- The fields of Go `type State struct` that `LoadConfig` and the three
switches of `Init` read or write. `DB` is the `*databaseOverlay.Overlay`
pointer, `none` being nil. Queues, maps, loggers and keys are left out. -/
structure State (Overlay : Type) where
  filename : String
  FactomNodeName : String
  FactomdVersion : Int
  ProtocolVersion : Int
  LogPath : String
  LdbPath : String
  BoltDBPath : String
  LogLevel : String
  ConsoleLogLevel : String
  NodeMode : String
  DBType : String
  ExportData : Bool
  ExportDataSubpath : String
  Network : String
  LocalServerPrivKey : String
  DirectoryBlockInSeconds : Int
  PortNumber : Int
  serverState : Int
  NetworkNumber : Int
  DB : Option Overlay
  FactoshisPerEC : Nat

/-- Go `new(State)`: every field at its zero value. -/
def State.zero (Overlay : Type) : State Overlay where
  filename := ""
  FactomNodeName := ""
  FactomdVersion := 0
  ProtocolVersion := 0
  LogPath := ""
  LdbPath := ""
  BoltDBPath := ""
  LogLevel := ""
  ConsoleLogLevel := ""
  NodeMode := ""
  DBType := ""
  ExportData := false
  ExportDataSubpath := ""
  Network := ""
  LocalServerPrivKey := ""
  DirectoryBlockInSeconds := 0
  PortNumber := 0
  serverState := 0
  NetworkNumber := 0
  DB := none
  FactoshisPerEC := 0

/-- The constants of package `constants` that `Init` assigns. -/
structure Constants where
  FACTOMD_VERSION : Int
  PROTOCOL_VERSION : Int
  NETWORK_MAIN : Int
  NETWORK_TEST : Int
  NETWORK_LOCAL : Int
  NETWORK_CUSTOM : Int

/-- The database collaborators of `Init`, which live in other packages.
`DBase` is an `interfaces.IDatabase` value (`none` being nil). The method
`SetExportData` receives the possibly nil `*Overlay` and may panic. -/
structure Collaborators (DBase Overlay : Type) where
  NewLevelMapHybridDB : String → Bool → Option DBase × Option GoError
  NewBoltMapHybridDB : String → Option DBase
  NewMapDB : Option DBase
  NewOverlay : Option DBase → Overlay
  SetExportData : Option Overlay → String → Call (Option Overlay) Unit

/-- Sequencing of calls: a panic ends the sequence. -/
def Call.andThen {σ α β : Type} (x : Call σ α) (f : σ → α → Call σ β) : Call σ β :=
  match x with
  | .ret s a => f s a
  | .panic s r => .panic s r

/-- Go `func (s *State) GetNetworkNumber() int`. -/
def State.GetNetworkNumber {Overlay : Type} (s : State Overlay) : Int := s.NetworkNumber

/-- Go `func (s *State) InitLevelDB() error`. -/
def State.InitLevelDB {DBase Overlay : Type} (c : Collaborators DBase Overlay)
    (s : State Overlay) : State Overlay × Option GoError :=
  if s.DB.isSome then (s, none)
  else
    let path := s.LdbPath ++ "/" ++ s.Network ++ "/" ++ "factoid_level.db"
    match c.NewLevelMapHybridDB path false with
    | (dbase, err) =>
      if err.isSome || dbase.isNone then
        match c.NewLevelMapHybridDB path true with
        | (_, some err) => (s, some err)
        | (dbase, none) => ({ s with DB := some (c.NewOverlay dbase) }, none)
      else ({ s with DB := some (c.NewOverlay dbase) }, none)

/-- Go `func (s *State) InitBoltDB() error`. -/
def State.InitBoltDB {DBase Overlay : Type} (c : Collaborators DBase Overlay)
    (s : State Overlay) : State Overlay × Option GoError :=
  if s.DB.isSome then (s, none)
  else
    let path := s.BoltDBPath ++ "/" ++ s.Network ++ "/"
    let dbase := c.NewBoltMapHybridDB (path ++ "FactomBolt.db")
    ({ s with DB := some (c.NewOverlay dbase) }, none)

/-- Go `func (s *State) InitMapDB() error`. -/
def State.InitMapDB {DBase Overlay : Type} (c : Collaborators DBase Overlay)
    (s : State Overlay) : State Overlay × Option GoError :=
  if s.DB.isSome then (s, none)
  else
    let dbase := c.NewMapDB
    ({ s with DB := some (c.NewOverlay dbase) }, none)

/-- Lines 266 to 279 of `Init`: `switch s.NodeMode`. -/
def State.Init.switchNodeMode {Overlay : Type} (s : State Overlay) :
    Call (State Overlay) Unit :=
  if s.NodeMode = "FULL" then .ret { s with serverState := 0 } ()
  else if s.NodeMode = "SERVER" then .ret { s with serverState := 1 } ()
  else .panic s (.message "Bad Node Mode (must be FULL or SERVER)")

/-- Lines 282 to 297 of `Init`: `switch s.DBType`. An error of the chosen
initialiser is printed by `log.Printfln` and execution goes on. -/
def State.Init.switchDBType {DBase Overlay : Type} (c : Collaborators DBase Overlay)
    (s : State Overlay) : Call (State Overlay) Unit :=
  if s.DBType = "LDB" then
    match s.InitLevelDB c with
    | (s, some _err) => .ret s ()
    | (s, none) => .ret s ()
  else if s.DBType = "Bolt" then
    match s.InitBoltDB c with
    | (s, some _err) => .ret s ()
    | (s, none) => .ret s ()
  else if s.DBType = "Map" then
    match s.InitMapDB c with
    | (s, some _err) => .ret s ()
    | (s, none) => .ret s ()
  else .panic s (.message "No Database type specified")

/-- Lines 299 to 301 of `Init`: `if s.ExportData { s.DB.SetExportData(...) }`. -/
def State.Init.exportData {DBase Overlay : Type} (c : Collaborators DBase Overlay)
    (s : State Overlay) : Call (State Overlay) Unit :=
  if s.ExportData then
    match c.SetExportData s.DB s.ExportDataSubpath with
    | .ret db _ => .ret { s with DB := db } ()
    | .panic db r => .panic { s with DB := db } r
  else .ret s ()

/-- Lines 304 to 315 of `Init`: `switch s.Network`. -/
def State.Init.switchNetwork {Overlay : Type} (k : Constants) (s : State Overlay) :
    Call (State Overlay) Unit :=
  if s.Network = "MAIN" then .ret { s with NetworkNumber := k.NETWORK_MAIN } ()
  else if s.Network = "TEST" then .ret { s with NetworkNumber := k.NETWORK_TEST } ()
  else if s.Network = "LOCAL" then .ret { s with NetworkNumber := k.NETWORK_LOCAL } ()
  else if s.Network = "CUSTOM" then .ret { s with NetworkNumber := k.NETWORK_CUSTOM } ()
  else .panic s (.message "Bad value for Network in factomd.conf")

/-- Go `func (s *State) Init()`. The logging set-up, the queues, maps and lists
allocated before the first switch, and `anchor.InitAnchor` and `initServerKeys`
after the last one, act on fields that `State` leaves out; they are taken to
return. -/
def State.Init {DBase Overlay : Type} (k : Constants) (c : Collaborators DBase Overlay)
    (s : State Overlay) : Call (State Overlay) Unit :=
  let s := { s with FactomdVersion := k.FACTOMD_VERSION
                    ProtocolVersion := k.PROTOCOL_VERSION }
  (State.Init.switchNodeMode s).andThen fun s _ =>
  (State.Init.switchDBType c s).andThen fun s _ =>
  (State.Init.exportData c s).andThen fun s _ =>
  State.Init.switchNetwork k s

/-- The error, if any, that the database initialiser chosen by `s.DBType`
returns when `Init` calls it (`none` when `DBType` names no initialiser). -/
def State.Init.selectedInitialiserError {DBase Overlay : Type}
    (c : Collaborators DBase Overlay) (s : State Overlay) : Option GoError :=
  if s.DBType = "LDB" then (s.InitLevelDB c).2
  else if s.DBType = "Bolt" then (s.InitBoltDB c).2
  else if s.DBType = "Map" then (s.InitMapDB c).2
  else none

/-- A timestamp codec whose encoder always fails. -/
def failingTimestamp : TimestampCodec (Fin (2 ^ 48)) where
  MarshalBinary _ := (none, some (.external "cannot encode"))
  UnmarshalBinaryData t _ := .ret t (none, some (.external "cannot decode"))

/-- A timestamp codec whose decoder panics on every input after setting the
timestamp to zero. -/
def panickingTimestamp : TimestampCodec (Fin (2 ^ 48)) where
  MarshalBinary _ := (some [], none)
  UnmarshalBinaryData _ _ := .panic 0 (.message "decoder invoked")

/-- Database collaborators whose LevelDB constructor always fails (storage
unreachable); databases and overlays carry no data. -/
def unreachableStorage : Collaborators Unit Unit where
  NewLevelMapHybridDB _ _ := (none, some (.external "cannot open database"))
  NewBoltMapHybridDB _ := some ()
  NewMapDB := some ()
  NewOverlay _ := ()
  SetExportData db _ := match db with
    | none => .panic none .nilDereference
    | some o => .ret (some o) ()

/-- A state configured for LevelDB on the local network, with no database open. -/
def levelDBState : State Unit :=
  { State.zero Unit with
    NodeMode := "SERVER", DBType := "LDB", Network := "LOCAL", LdbPath := "database/ldb" }

/-- The network tags as the comment on `State.NetworkNumber` gives them. -/
def commentConstants : Constants where
  FACTOMD_VERSION := 0
  PROTOCOL_VERSION := 0
  NETWORK_MAIN := 0
  NETWORK_TEST := 1
  NETWORK_LOCAL := 2
  NETWORK_CUSTOM := 3

/-! ## `state.State`: `LoadConfig`, `GetFactoshisPerEC`, `LoadDBState` -/

/-- The `Log` section of `util.FactomdConfig`, as far as `LoadConfig` reads it. -/
structure LogConfig where
  LogPath : String
  LogLevel : String
  ConsoleLogLevel : String

/-- The `App` section of `util.FactomdConfig`, as far as `LoadConfig` reads it. -/
structure AppConfig where
  LdbPath : String
  BoltDBPath : String
  NodeMode : String
  DBType : String
  ExportData : Bool
  ExportDataSubpath : String
  Network : String
  LocalServerPrivKey : String
  ExchangeRate : Nat
  DirectoryBlockInSeconds : Int

/-- The `Wsapi` section of `util.FactomdConfig`, as far as `LoadConfig` reads it. -/
structure WsapiConfig where
  PortNumber : Int

/-- The value `util.ReadConfig` returns, as far as `LoadConfig` reads it. -/
structure FactomdConfig where
  App : AppConfig
  Wsapi : WsapiConfig
  Log : LogConfig

/-- Go `func (s *State) LoadConfig(filename string)`, with `util.ReadConfig` a
parameter. The fields `Cfg`, `IdentityChainID` and `CoreChainID`, which it also
sets, are not part of `State` here. The literal `00100000` of line 210 is
octal in Go and is written `0o100000`. -/
def State.LoadConfig {Overlay : Type} (ReadConfig : String → FactomdConfig)
    (s : State Overlay) (filename : String) : State Overlay :=
  let s := { s with FactomNodeName := "FNode0" }
  if filename.length > 0 then
    let s := { s with filename := filename }
    let cfg := ReadConfig filename
    { s with
      LogPath := cfg.Log.LogPath
      LdbPath := cfg.App.LdbPath
      BoltDBPath := cfg.App.BoltDBPath
      LogLevel := cfg.Log.LogLevel
      ConsoleLogLevel := cfg.Log.ConsoleLogLevel
      NodeMode := cfg.App.NodeMode
      DBType := cfg.App.DBType
      ExportData := cfg.App.ExportData
      ExportDataSubpath := cfg.App.ExportDataSubpath
      Network := cfg.App.Network
      LocalServerPrivKey := cfg.App.LocalServerPrivKey
      FactoshisPerEC := cfg.App.ExchangeRate
      DirectoryBlockInSeconds := cfg.App.DirectoryBlockInSeconds
      PortNumber := cfg.Wsapi.PortNumber }
  else
    { s with
      LogPath := "database/"
      LdbPath := "database/ldb"
      BoltDBPath := "database/bolt"
      LogLevel := "none"
      ConsoleLogLevel := "standard"
      NodeMode := "SERVER"
      DBType := "Map"
      ExportData := false
      ExportDataSubpath := "data/export"
      Network := "LOCAL"
      LocalServerPrivKey := "4c38c72fc5cdad68f13b74674d3ffb1f3d63a112710868c9b08946553448d26d"
      FactoshisPerEC := 0o100000
      DirectoryBlockInSeconds := 6
      PortNumber := 8088 }

/-- Go `func (s *State) GetFactoshisPerEC() uint64`. -/
def State.GetFactoshisPerEC {Overlay : Type} (s : State Overlay) : Nat := s.FactoshisPerEC

/-- Go `func (s *State) SetFactoshisPerEC(factoshisPerEC uint64)`. -/
def State.SetFactoshisPerEC {Overlay : Type} (s : State Overlay) (factoshisPerEC : Nat) :
    State Overlay :=
  { s with FactoshisPerEC := factoshisPerEC }

/-- What a fetch of the block store gives: the block (`none` being nil) and the
error, or a panic of the store. -/
abbrev Fetched (β : Type) := Except PanicValue (Option β × Option GoError)

/-- The collaborators of `LoadDBState`, which live in other packages: the four
fetch methods of `*databaseOverlay.Overlay` (called on the possibly nil `s.DB`),
the accessors of a directory block and of its entries, and
`messages.NewDBStateMsg`. -/
structure BlockStore (Overlay Hash DBlock DBEntry ABlock ECBlock FBlock Msg : Type) where
  FetchDBlockByHeight : Option Overlay → Fin (2 ^ 32) → Fetched DBlock
  FetchABlockByKeyMR : Option Overlay → Hash → Fetched ABlock
  FetchECBlockByHash : Option Overlay → Hash → Fetched ECBlock
  FetchFBlockByKeyMR : Option Overlay → Hash → Fetched FBlock
  GetDBEntries : DBlock → List DBEntry
  GetKeyMR : DBEntry → Hash
  NewDBStateMsg : State Overlay → DBlock → ABlock → FBlock → ECBlock → Msg

/-- Go `l[i]` on a slice of any element type: the element, or the run-time
panic. -/
def indexEntries {α : Type} (l : List α) (i : Nat) : Except PanicValue α :=
  match l[i]? with
  | some a => .ok a
  | none => .error (.indexOutOfRange i l.length)

/-- Go `func (s *State) LoadDBState(dbheight uint32) (interfaces.IMsg, error)`.
The function has no deferred `recover`: a panic of a fetch or of an index
expression ends it. -/
def State.LoadDBState {Overlay Hash DBlock DBEntry ABlock ECBlock FBlock Msg : Type}
    (st : BlockStore Overlay Hash DBlock DBEntry ABlock ECBlock FBlock Msg)
    (s : State Overlay) (dbheight : Fin (2 ^ 32)) :
    Except PanicValue (Option Msg × Option GoError) :=
  match st.FetchDBlockByHeight s.DB dbheight with
  | .error r => .error r
  | .ok (_, some err) => .ok (none, some err)
  | .ok (none, none) => .ok (none, none)
  | .ok (some dblk, none) =>
    match indexEntries (st.GetDBEntries dblk) 0 with
    | .error r => .error r
    | .ok e0 =>
      match st.FetchABlockByKeyMR s.DB (st.GetKeyMR e0) with
      | .error r => .error r
      | .ok (_, some err) => .ok (none, some err)
      | .ok (none, none) => .ok (none, some (.errorf "ABlock not found"))
      | .ok (some ablk, none) =>
        match indexEntries (st.GetDBEntries dblk) 1 with
        | .error r => .error r
        | .ok e1 =>
          match st.FetchECBlockByHash s.DB (st.GetKeyMR e1) with
          | .error r => .error r
          | .ok (_, some err) => .ok (none, some err)
          | .ok (none, none) => .ok (none, some (.errorf "ECBlock not found"))
          | .ok (some ecblk, none) =>
            match indexEntries (st.GetDBEntries dblk) 2 with
            | .error r => .error r
            | .ok e2 =>
              match st.FetchFBlockByKeyMR s.DB (st.GetKeyMR e2) with
              | .error r => .error r
              | .ok (_, some err) => .ok (none, some err)
              | .ok (none, none) => .ok (none, some (.errorf "FBlock not found"))
              | .ok (some fblk, none) =>
                let msg := st.NewDBStateMsg s dblk ablk fblk ecblk
                .ok (some msg, none)

/-! ## `messages.RequestBlock`: the hash caches -/

/-- Go `fmt.Sprintf("%v", r)` for a recovered panic value, as the run-time
words its errors. -/
def PanicValue.format : PanicValue → String
  | .indexOutOfRange _ _ => "runtime error: index out of range"
  | .sliceBoundsOutOfRange _ _ => "runtime error: slice bounds out of range"
  | .nilDereference => "runtime error: invalid memory address or nil pointer dereference"
  | .message msg => msg

/-- Go `err.Error()`. -/
def GoError.Error : GoError → String
  | .errorf msg => msg
  | .recovered pfx r => pfx ++ r.format
  | .external msg => msg

/-- Go `func (m *RequestBlock) GetHash() interfaces.IHash`, with `primitives.Sha`
a parameter. -/
def RequestBlock.GetHash {T H : Type} (REQUEST_BLOCK_MSG : Byte) (codec : TimestampCodec T)
    (Sha : Slice → H) (m : RequestBlock T H) : Call (RequestBlock T H) (Option H) :=
  match m.hash with
  | none =>
    match m.MarshalForSignature REQUEST_BLOCK_MSG codec with
    | (_, some err) =>
      .panic m (.message ("Error in RequestBlock.GetHash(): " ++ err.Error))
    | (data, none) =>
      let m := { m with hash := some (Sha data) }
      .ret m m.hash
  | some _ => .ret m m.hash

/-- Go `func (m *RequestBlock) GetMsgHash() interfaces.IHash`, with
`primitives.Sha` a parameter. -/
def RequestBlock.GetMsgHash {T H : Type} (REQUEST_BLOCK_MSG : Byte) (codec : TimestampCodec T)
    (Sha : Slice → H) (m : RequestBlock T H) : Call (RequestBlock T H) (Option H) :=
  match m.MsgHash with
  | none =>
    match m.MarshalBinary REQUEST_BLOCK_MSG codec with
    | (_, some _err) => .ret m none
    | (data, none) =>
      let m := { m with MsgHash := some (Sha data) }
      .ret m m.MsgHash
  | some _ => .ret m m.MsgHash

/-- Modelled from the spec: the values of `constants.NETWORK_MAIN`,
`NETWORK_TEST`, `NETWORK_LOCAL` and `NETWORK_CUSTOM`, declared in package
`constants`, which is not among the sources. The comment on
`State.NetworkNumber` gives them as MAIN = 0, TEST = 1, LOCAL = 2, CUSTOM = 3. -/
def Constants.networkTagsAsDocumented (k : Constants) : Prop :=
  k.NETWORK_MAIN = 0 ∧ k.NETWORK_TEST = 1 ∧ k.NETWORK_LOCAL = 2 ∧ k.NETWORK_CUSTOM = 3

instance (k : Constants) : Decidable k.networkTagsAsDocumented :=
  inferInstanceAs (Decidable (_ ∧ _ ∧ _ ∧ _))

/-- Database collaborators that always succeed; databases and overlays carry
no data. -/
def reachableStorage : Collaborators Unit Unit where
  NewLevelMapHybridDB _ _ := (some (), none)
  NewBoltMapHybridDB _ := some ()
  NewMapDB := some ()
  NewOverlay _ := ()
  SetExportData db _ := match db with
    | none => .panic none .nilDereference
    | some o => .ret (some o) ()

/-- A small block store. Hashes, entries and blocks are numbers, a directory
block is the list of its entries. Height 0 holds a directory block whose three
entries name blocks that are present (admin 1, entry-credit 2, factoid 3);
height 1 holds one whose entry 0 names an absent admin block; height 2 one
whose entry 1 names an absent entry-credit block; height 3 one whose entry 2
names an absent factoid block; height 4 fails with an error; nothing else is
stored. The message built is the list of the four blocks. -/
def exampleStore : BlockStore Unit Nat (List Nat) Nat Nat Nat Nat (List (List Nat)) where
  FetchDBlockByHeight _ h :=
    if h.val = 0 then .ok (some [1, 2, 3], none)
    else if h.val = 1 then .ok (some [7, 2, 3], none)
    else if h.val = 2 then .ok (some [1, 7, 3], none)
    else if h.val = 3 then .ok (some [1, 2, 7], none)
    else if h.val = 4 then .ok (none, some (.external "read failed"))
    else .ok (none, none)
  FetchABlockByKeyMR _ key := if key = 1 then .ok (some 10, none) else .ok (none, none)
  FetchECBlockByHash _ key := if key = 2 then .ok (some 20, none) else .ok (none, none)
  FetchFBlockByKeyMR _ key := if key = 3 then .ok (some 30, none) else .ok (none, none)
  GetDBEntries d := d
  GetKeyMR e := e
  NewDBStateMsg _ d a f ec := [d, [a], [f], [ec]]

/-- A stand-in for `primitives.Sha` that returns the bytes it is given, so that
different inputs have different hashes. -/
def listSha : Slice → List Byte := Slice.toList

/-! ## Theorems: `EndOfMinuteEntry` -/

/-- C1. EndOfMinuteEntry round trip: encoding `e` never fails, and decoding the
encoding followed by any `rest` into any target `t` returns without panic and
without error, makes the target equal to `e` and returns exactly `rest`. -/
theorem EndOfMinuteEntry.entry_roundtrip (TYPE_MINUTE_NUM : Byte)
    (e t : EndOfMinuteEntry) (rest : List Byte) :
    (e.MarshalBinary TYPE_MINUTE_NUM).2 = none ∧
    EndOfMinuteEntry.UnmarshalBinaryDataBody TYPE_MINUTE_NUM t
        (some (Slice.toList (e.MarshalBinary TYPE_MINUTE_NUM).1 ++ rest))
      = .returned e (some rest) none ∧
    EndOfMinuteEntry.UnmarshalBinaryData TYPE_MINUTE_NUM t
        (some (Slice.toList (e.MarshalBinary TYPE_MINUTE_NUM).1 ++ rest))
      = ⟨e, some rest, none⟩ := by
  have hb : EndOfMinuteEntry.UnmarshalBinaryDataBody TYPE_MINUTE_NUM t
        (some (Slice.toList (e.MarshalBinary TYPE_MINUTE_NUM).1 ++ rest))
      = .returned e (some rest) none := by
    simp [EndOfMinuteEntry.UnmarshalBinaryDataBody, EndOfMinuteEntry.MarshalBinary,
      EndOfMinuteEntry.Type', Slice.toList, Slice.index, Slice.sliceFrom, Slice.len]
  refine ⟨rfl, hb, ?_⟩
  rw [EndOfMinuteEntry.UnmarshalBinaryData, hb]
  rfl

/-- C3. EndOfMinuteEntry type safety: on a non-empty input whose first byte is
not `TYPE_MINUTE_NUM` the body returns (it does not panic) the error
"Invalid Entry type" with a nil remainder, and the entry is left as it was. -/
theorem EndOfMinuteEntry.entry_type_mismatch (TYPE_MINUTE_NUM : Byte)
    (e : EndOfMinuteEntry) (b : Byte) (tl : List Byte) (h : b ≠ TYPE_MINUTE_NUM) :
    EndOfMinuteEntry.UnmarshalBinaryDataBody TYPE_MINUTE_NUM e (some (b :: tl))
      = .returned e none (some (.errorf "Invalid Entry type")) ∧
    EndOfMinuteEntry.UnmarshalBinaryData TYPE_MINUTE_NUM e (some (b :: tl))
      = ⟨e, none, some (.errorf "Invalid Entry type")⟩ := by
  have hb : EndOfMinuteEntry.UnmarshalBinaryDataBody TYPE_MINUTE_NUM e (some (b :: tl))
      = .returned e none (some (.errorf "Invalid Entry type")) := by
    simp [EndOfMinuteEntry.UnmarshalBinaryDataBody, EndOfMinuteEntry.Type', Slice.toList,
      Slice.index, h]
  refine ⟨hb, ?_⟩
  rw [EndOfMinuteEntry.UnmarshalBinaryData, hb]
  rfl

theorem EndOfMinuteEntry.entry_type_mismatch_witness :
    EndOfMinuteEntry.UnmarshalBinaryDataBody 0 ⟨7⟩ (some [1, 3])
      = .returned ⟨7⟩ none (some (.errorf "Invalid Entry type")) ∧
    EndOfMinuteEntry.UnmarshalBinaryData 0 ⟨7⟩ (some [1, 3])
      = ⟨⟨7⟩, none, some (.errorf "Invalid Entry type")⟩ :=
  EndOfMinuteEntry.entry_type_mismatch 0 ⟨7⟩ 1 [3] (by decide)

/-- C5. EndOfMinuteEntry truncation: on an input of fewer than two bytes (nil,
empty, or a single byte, tag or not) the decoder returns a non-nil error and
leaves the entry as it was; on an input of two or more bytes whose first byte
is `TYPE_MINUTE_NUM` it returns no error. -/
theorem EndOfMinuteEntry.unmarshal_truncated (TYPE_MINUTE_NUM : Byte)
    (e : EndOfMinuteEntry) (data : Slice) :
    (Slice.len data < 2 →
      (EndOfMinuteEntry.UnmarshalBinaryData TYPE_MINUTE_NUM e data).err ≠ none ∧
      (EndOfMinuteEntry.UnmarshalBinaryData TYPE_MINUTE_NUM e data).recv = e) ∧
    (2 ≤ Slice.len data → Slice.index data 0 = .ok TYPE_MINUTE_NUM →
      (EndOfMinuteEntry.UnmarshalBinaryData TYPE_MINUTE_NUM e data).err = none) := by
  constructor
  · intro hlen
    rcases data with _ | l
    · simp [EndOfMinuteEntry.UnmarshalBinaryData, EndOfMinuteEntry.UnmarshalBinaryDataBody,
        Slice.index, Slice.toList, recoverInto]
    · rcases l with _ | ⟨b, tl⟩
      · simp [EndOfMinuteEntry.UnmarshalBinaryData, EndOfMinuteEntry.UnmarshalBinaryDataBody,
          Slice.index, Slice.toList, recoverInto]
      · rcases tl with _ | ⟨b', tl'⟩
        · by_cases hb : b = TYPE_MINUTE_NUM
          · simp [EndOfMinuteEntry.UnmarshalBinaryData,
              EndOfMinuteEntry.UnmarshalBinaryDataBody, EndOfMinuteEntry.Type',
              Slice.index, Slice.sliceFrom, Slice.len, Slice.toList, recoverInto, hb]
          · simp [EndOfMinuteEntry.UnmarshalBinaryData,
              EndOfMinuteEntry.UnmarshalBinaryDataBody, EndOfMinuteEntry.Type',
              Slice.index, Slice.toList, recoverInto, hb]
        · simp only [Slice.len, Slice.toList, List.length_cons] at hlen
          omega
  · intro hlen h0
    rcases data with _ | l
    · simp [Slice.len, Slice.toList] at hlen
    · rcases l with _ | ⟨b, tl⟩
      · simp [Slice.len, Slice.toList] at hlen
      · rcases tl with _ | ⟨b', tl'⟩
        · simp [Slice.len, Slice.toList] at hlen
        · have hb : b = TYPE_MINUTE_NUM := by
            simpa [Slice.index, Slice.toList] using h0
          simp [EndOfMinuteEntry.UnmarshalBinaryData,
            EndOfMinuteEntry.UnmarshalBinaryDataBody, EndOfMinuteEntry.Type',
            Slice.index, Slice.sliceFrom, Slice.len, Slice.toList, recoverInto, hb]

theorem EndOfMinuteEntry.unmarshal_truncated_witness :
    ((EndOfMinuteEntry.UnmarshalBinaryData 0 ⟨7⟩ (some [0])).err ≠ none ∧
      (EndOfMinuteEntry.UnmarshalBinaryData 0 ⟨7⟩ (some [0])).recv = ⟨7⟩) ∧
    (EndOfMinuteEntry.UnmarshalBinaryData 0 ⟨7⟩ (some [0, 4, 9])).err = none :=
  ⟨(EndOfMinuteEntry.unmarshal_truncated 0 ⟨7⟩ (some [0])).1 (by decide),
   (EndOfMinuteEntry.unmarshal_truncated 0 ⟨7⟩ (some [0, 4, 9])).2 (by decide) rfl⟩

/-- C6. EndOfMinuteEntry wire format: `MarshalBinary` returns no error and
exactly two bytes, the type tag `e.Type()` and then `e.MinuteNumber`. -/
theorem EndOfMinuteEntry.entry_wire_format (TYPE_MINUTE_NUM : Byte)
    (e : EndOfMinuteEntry) :
    e.MarshalBinary TYPE_MINUTE_NUM
      = (some [e.Type' TYPE_MINUTE_NUM, e.MinuteNumber], none) ∧
    e.Type' TYPE_MINUTE_NUM = TYPE_MINUTE_NUM ∧
    Slice.len (e.MarshalBinary TYPE_MINUTE_NUM).1 = 2 := by
  simp [EndOfMinuteEntry.MarshalBinary, EndOfMinuteEntry.Type', Slice.len, Slice.toList]

/-- Whatever the type tag, the two bytes "tag, 10" are accepted and give
minute number 10. -/
theorem EndOfMinuteEntry.unmarshal_minute_ten (TYPE_MINUTE_NUM : Byte)
    (e : EndOfMinuteEntry) :
    EndOfMinuteEntry.UnmarshalBinaryData TYPE_MINUTE_NUM e (some [TYPE_MINUTE_NUM, 10])
      = ⟨⟨10⟩, some [], none⟩ := by
  simp [EndOfMinuteEntry.UnmarshalBinaryData, EndOfMinuteEntry.UnmarshalBinaryDataBody,
    EndOfMinuteEntry.Type', Slice.index, Slice.sliceFrom, Slice.len, Slice.toList, recoverInto]

/-- C8, counterexample. The two bytes "tag, 10" are accepted without error and
the resulting minute number is 10, which is not between 0 and 9. -/
theorem EndOfMinuteEntry.unmarshal_minute_range_counterexample :
    (EndOfMinuteEntry.UnmarshalBinaryData 0 ⟨0⟩ (some [0, 10])).err = none ∧
    ¬ ((EndOfMinuteEntry.UnmarshalBinaryData 0 ⟨0⟩ (some [0, 10])).recv.MinuteNumber.val ≤ 9) := by
  rw [EndOfMinuteEntry.unmarshal_minute_ten]
  decide

/-- C8, amended. For every input that `UnmarshalBinaryData` accepts without
error, the input has at least two bytes, the first being `TYPE_MINUTE_NUM`, and
the resulting minute number is the second byte of the input, unchecked: it lies
between 0 and 255. -/
theorem EndOfMinuteEntry.unmarshal_minute_is_second_byte (TYPE_MINUTE_NUM : Byte)
    (e : EndOfMinuteEntry) (data : Slice)
    (h : (EndOfMinuteEntry.UnmarshalBinaryData TYPE_MINUTE_NUM e data).err = none) :
    ∃ (b : Byte) (rest : List Byte), data = some (TYPE_MINUTE_NUM :: b :: rest) ∧
      EndOfMinuteEntry.UnmarshalBinaryData TYPE_MINUTE_NUM e data = ⟨⟨b⟩, some rest, none⟩ ∧
      (EndOfMinuteEntry.UnmarshalBinaryData TYPE_MINUTE_NUM e data).recv.MinuteNumber.val
        ≤ 255 := by
  rcases data with _ | l
  · simp [EndOfMinuteEntry.UnmarshalBinaryData, EndOfMinuteEntry.UnmarshalBinaryDataBody,
      Slice.index, Slice.toList, recoverInto] at h
  · rcases l with _ | ⟨b0, tl⟩
    · simp [EndOfMinuteEntry.UnmarshalBinaryData, EndOfMinuteEntry.UnmarshalBinaryDataBody,
        Slice.index, Slice.toList, recoverInto] at h
    · by_cases hb : b0 = TYPE_MINUTE_NUM
      · rcases tl with _ | ⟨b1, rest⟩
        · simp [EndOfMinuteEntry.UnmarshalBinaryData,
            EndOfMinuteEntry.UnmarshalBinaryDataBody, EndOfMinuteEntry.Type',
            Slice.index, Slice.sliceFrom, Slice.len, Slice.toList, recoverInto, hb] at h
        · refine ⟨b1, rest, by rw [hb], ?_, ?_⟩
          · simp [EndOfMinuteEntry.UnmarshalBinaryData,
              EndOfMinuteEntry.UnmarshalBinaryDataBody, EndOfMinuteEntry.Type',
              Slice.index, Slice.sliceFrom, Slice.len, Slice.toList, recoverInto, hb]
          · exact Nat.lt_succ_iff.mp (Fin.isLt _)
      · simp [EndOfMinuteEntry.UnmarshalBinaryData,
          EndOfMinuteEntry.UnmarshalBinaryDataBody, EndOfMinuteEntry.Type',
          Slice.index, Slice.toList, recoverInto, hb] at h

theorem EndOfMinuteEntry.unmarshal_minute_is_second_byte_witness :
    ∃ (b : Byte) (rest : List Byte), (some [0, 200, 5] : Slice) = some (0 :: b :: rest) ∧
      EndOfMinuteEntry.UnmarshalBinaryData 0 ⟨3⟩ (some [0, 200, 5]) = ⟨⟨b⟩, some rest, none⟩ ∧
      (EndOfMinuteEntry.UnmarshalBinaryData 0 ⟨3⟩ (some [0, 200, 5])).recv.MinuteNumber.val
        ≤ 255 :=
  EndOfMinuteEntry.unmarshal_minute_is_second_byte 0 ⟨3⟩ (some [0, 200, 5]) (by decide)

/-! ## Theorems: `RequestBlock` -/

/-- The six-byte codec round-trips: decoding the encoding of `t` followed by
`rest` yields `t` and the remainder `rest`. -/
theorem sixByteTimestamp_roundtrip (t t0 : Fin (2 ^ 48)) (rest : List Byte) :
    (sixByteTimestamp.MarshalBinary t).2 = none ∧
    sixByteTimestamp.UnmarshalBinaryData t0
        (some (Slice.toList (sixByteTimestamp.MarshalBinary t).1 ++ rest))
      = .ret t (some rest, none) := by
  refine ⟨rfl, ?_⟩
  have ht := t.isLt
  simp only [sixByteTimestamp, Slice.toList, List.cons_append, List.nil_append]
  congr 1
  apply Fin.ext
  simp only [Fin.ofNat, Fin.val_mk]
  omega

/-- C2. RequestBlock round trip: if the Timestamp codec round-trips, then for
every message `m`, every target `m0` and every `rest`, encoding `m` returns no
error, and decoding the encoding followed by `rest` returns no error, returns
`rest` as the remainder and yields a message that `IsSameAs` `m` (its Timestamp
is that of `m`). -/
theorem RequestBlock.message_roundtrip {T H : Type} [DecidableEq T]
    (REQUEST_BLOCK_MSG : Byte) (codec : TimestampCodec T)
    (hcodec : ∀ (t t0 : T) (rest : List Byte),
      (codec.MarshalBinary t).2 = none ∧
      codec.UnmarshalBinaryData t0 (some (Slice.toList (codec.MarshalBinary t).1 ++ rest))
        = .ret t (some rest, none))
    (m m0 : RequestBlock T H) (rest : List Byte) :
    (m.MarshalBinary REQUEST_BLOCK_MSG codec).2 = none ∧
    (RequestBlock.UnmarshalBinaryData REQUEST_BLOCK_MSG codec m0
        (some (Slice.toList (m.MarshalBinary REQUEST_BLOCK_MSG codec).1 ++ rest))).err = none ∧
    (RequestBlock.UnmarshalBinaryData REQUEST_BLOCK_MSG codec m0
        (some (Slice.toList (m.MarshalBinary REQUEST_BLOCK_MSG codec).1 ++ rest))).newData
      = some rest ∧
    (RequestBlock.UnmarshalBinaryData REQUEST_BLOCK_MSG codec m0
        (some (Slice.toList (m.MarshalBinary REQUEST_BLOCK_MSG codec).1 ++ rest))).recv.IsSameAs
      (some m) = true ∧
    (RequestBlock.UnmarshalBinaryData REQUEST_BLOCK_MSG codec m0
        (some (Slice.toList (m.MarshalBinary REQUEST_BLOCK_MSG codec).1 ++ rest))).recv.Timestamp
      = m.Timestamp := by
  obtain ⟨henc, hdec⟩ := hcodec m.Timestamp m0.Timestamp rest
  have hm : m.MarshalBinary REQUEST_BLOCK_MSG codec
      = (some (REQUEST_BLOCK_MSG :: Slice.toList (codec.MarshalBinary m.Timestamp).1), none) := by
    rcases hpair : codec.MarshalBinary m.Timestamp with ⟨d, err⟩
    rw [hpair] at henc
    simp only at henc
    subst henc
    simp [RequestBlock.MarshalBinary, RequestBlock.MarshalForSignature, RequestBlock.Type', hpair]
  have hu : RequestBlock.UnmarshalBinaryData REQUEST_BLOCK_MSG codec m0
        (some (Slice.toList (m.MarshalBinary REQUEST_BLOCK_MSG codec).1 ++ rest))
      = ⟨{ m0 with Timestamp := m.Timestamp }, some rest, none⟩ := by
    rw [hm]
    simp [RequestBlock.UnmarshalBinaryData, RequestBlock.UnmarshalBinaryDataBody,
      RequestBlock.Type', Slice.index, Slice.sliceFrom, Slice.len, Slice.toList, recoverInto]
    simp only [Slice.toList] at hdec
    rw [hdec]
  rw [hu]
  refine ⟨by rw [hm], rfl, rfl, ?_, rfl⟩
  simp [RequestBlock.IsSameAs]

theorem RequestBlock.message_roundtrip_witness :
    ((⟨none, 1446400000000, none⟩ : RequestBlock (Fin (2 ^ 48)) Unit).MarshalBinary 14
        sixByteTimestamp).2 = none ∧
    (RequestBlock.UnmarshalBinaryData 14 sixByteTimestamp (⟨none, 0, none⟩ : RequestBlock _ Unit)
        (some (Slice.toList ((⟨none, 1446400000000, none⟩ :
          RequestBlock (Fin (2 ^ 48)) Unit).MarshalBinary 14 sixByteTimestamp).1 ++ [9, 8]))).err
      = none ∧
    (RequestBlock.UnmarshalBinaryData 14 sixByteTimestamp (⟨none, 0, none⟩ : RequestBlock _ Unit)
        (some (Slice.toList ((⟨none, 1446400000000, none⟩ :
          RequestBlock (Fin (2 ^ 48)) Unit).MarshalBinary 14 sixByteTimestamp).1 ++ [9, 8]))).newData
      = some [9, 8] ∧
    (RequestBlock.UnmarshalBinaryData 14 sixByteTimestamp (⟨none, 0, none⟩ : RequestBlock _ Unit)
        (some (Slice.toList ((⟨none, 1446400000000, none⟩ :
          RequestBlock (Fin (2 ^ 48)) Unit).MarshalBinary 14 sixByteTimestamp).1 ++ [9, 8]))).recv.IsSameAs
      (some ⟨none, 1446400000000, none⟩) = true ∧
    (RequestBlock.UnmarshalBinaryData 14 sixByteTimestamp (⟨none, 0, none⟩ : RequestBlock _ Unit)
        (some (Slice.toList ((⟨none, 1446400000000, none⟩ :
          RequestBlock (Fin (2 ^ 48)) Unit).MarshalBinary 14 sixByteTimestamp).1 ++ [9, 8]))).recv.Timestamp
      = 1446400000000 :=
  RequestBlock.message_roundtrip 14 sixByteTimestamp sixByteTimestamp_roundtrip
    ⟨none, 1446400000000, none⟩ ⟨none, 0, none⟩ [9, 8]

/-- C4. RequestBlock type safety: on a non-empty input whose first byte is not
`REQUEST_BLOCK_MSG` the body returns (it does not panic) the error
"Invalid Message type" with a nil remainder and the message, its Timestamp
included, is left as it was. This holds for every Timestamp codec, also one
whose decoder panics or changes the timestamp it is called on: the decoder is
not invoked. -/
theorem RequestBlock.message_type_mismatch {T H : Type} (REQUEST_BLOCK_MSG : Byte)
    (codec : TimestampCodec T) (m : RequestBlock T H) (b : Byte) (tl : List Byte)
    (h : b ≠ REQUEST_BLOCK_MSG) :
    RequestBlock.UnmarshalBinaryDataBody REQUEST_BLOCK_MSG codec m (some (b :: tl))
      = .returned m none (some (.errorf "Invalid Message type")) ∧
    RequestBlock.UnmarshalBinaryData REQUEST_BLOCK_MSG codec m (some (b :: tl))
      = ⟨m, none, some (.errorf "Invalid Message type")⟩ ∧
    (RequestBlock.UnmarshalBinaryData REQUEST_BLOCK_MSG codec m (some (b :: tl))).recv.Timestamp
      = m.Timestamp := by
  have hb : RequestBlock.UnmarshalBinaryDataBody REQUEST_BLOCK_MSG codec m (some (b :: tl))
      = .returned m none (some (.errorf "Invalid Message type")) := by
    simp [RequestBlock.UnmarshalBinaryDataBody, RequestBlock.Type', Slice.toList,
      Slice.index, h]
  have hu : RequestBlock.UnmarshalBinaryData REQUEST_BLOCK_MSG codec m (some (b :: tl))
      = ⟨m, none, some (.errorf "Invalid Message type")⟩ := by
    rw [RequestBlock.UnmarshalBinaryData, hb]
    rfl
  exact ⟨hb, hu, by rw [hu]⟩

theorem RequestBlock.message_type_mismatch_witness :
    RequestBlock.UnmarshalBinaryDataBody 14 panickingTimestamp
        (⟨none, 5, none⟩ : RequestBlock _ Unit) (some [13, 0, 0])
      = .returned ⟨none, 5, none⟩ none (some (.errorf "Invalid Message type")) ∧
    RequestBlock.UnmarshalBinaryData 14 panickingTimestamp
        (⟨none, 5, none⟩ : RequestBlock _ Unit) (some [13, 0, 0])
      = ⟨⟨none, 5, none⟩, none, some (.errorf "Invalid Message type")⟩ ∧
    (RequestBlock.UnmarshalBinaryData 14 panickingTimestamp
        (⟨none, 5, none⟩ : RequestBlock _ Unit) (some [13, 0, 0])).recv.Timestamp = 5 :=
  RequestBlock.message_type_mismatch 14 panickingTimestamp ⟨none, 5, none⟩ 13 [0, 0]
    (by decide)

/-- C7. RequestBlock wire format: `MarshalBinary` and `MarshalForSignature`
return the same result; when the Timestamp encoder returns bytes `d` and no
error, that result is the byte `REQUEST_BLOCK_MSG` followed by exactly `d`, with
no error; when the encoder returns an error, that result is the error and the
nil slice. -/
theorem RequestBlock.message_wire_format {T H : Type} (REQUEST_BLOCK_MSG : Byte)
    (codec : TimestampCodec T) (m : RequestBlock T H) :
    m.MarshalBinary REQUEST_BLOCK_MSG codec = m.MarshalForSignature REQUEST_BLOCK_MSG codec ∧
    m.Type' REQUEST_BLOCK_MSG = REQUEST_BLOCK_MSG ∧
    (∀ d : Slice, codec.MarshalBinary m.Timestamp = (d, none) →
      m.MarshalBinary REQUEST_BLOCK_MSG codec
        = (some (REQUEST_BLOCK_MSG :: Slice.toList d), none)) ∧
    (∀ (d : Slice) (err : GoError), codec.MarshalBinary m.Timestamp = (d, some err) →
      m.MarshalBinary REQUEST_BLOCK_MSG codec = (none, some err)) := by
  refine ⟨rfl, rfl, ?_, ?_⟩
  · intro d hd
    simp [RequestBlock.MarshalBinary, RequestBlock.MarshalForSignature, RequestBlock.Type', hd]
  · intro d err hd
    simp [RequestBlock.MarshalBinary, RequestBlock.MarshalForSignature, hd]

theorem RequestBlock.message_wire_format_witness :
    (⟨none, 258, none⟩ : RequestBlock (Fin (2 ^ 48)) Unit).MarshalBinary 14 sixByteTimestamp
      = (some [14, 0, 0, 0, 0, 1, 2], none) ∧
    (⟨none, 258, none⟩ : RequestBlock (Fin (2 ^ 48)) Unit).MarshalBinary 14 failingTimestamp
      = (none, some (.external "cannot encode")) :=
  ⟨(RequestBlock.message_wire_format 14 sixByteTimestamp ⟨none, 258, none⟩).2.2.1
      (some [0, 0, 0, 0, 1, 2]) rfl,
   (RequestBlock.message_wire_format 14 failingTimestamp ⟨none, 258, none⟩).2.2.2
      none (.external "cannot encode") rfl⟩

/-! ## Theorems: `State.Init` -/

/-- The three database initialisers change no field but `DB`. -/
theorem State.InitLevelDB_frame {DBase Overlay : Type} (c : Collaborators DBase Overlay)
    (s : State Overlay) : ∃ db, (s.InitLevelDB c).1 = { s with DB := db } := by
  by_cases hdb : s.DB.isSome = true
  · exact ⟨s.DB, by simp [State.InitLevelDB, hdb]⟩
  · rcases h1 : c.NewLevelMapHybridDB
        (s.LdbPath ++ "/" ++ s.Network ++ "/" ++ "factoid_level.db") false with ⟨d1, e1⟩
    rcases h2 : c.NewLevelMapHybridDB
        (s.LdbPath ++ "/" ++ s.Network ++ "/" ++ "factoid_level.db") true with ⟨d2, _ | e2⟩
    · by_cases hc : (e1.isSome || d1.isNone) = true
      · exact ⟨some (c.NewOverlay d2), by simp only [State.InitLevelDB, hdb, h1, h2, hc]; rfl⟩
      · exact ⟨some (c.NewOverlay d1), by simp only [State.InitLevelDB, hdb, h1, h2, hc]; rfl⟩
    · by_cases hc : (e1.isSome || d1.isNone) = true
      · exact ⟨s.DB, by simp only [State.InitLevelDB, hdb, h1, h2, hc]; rfl⟩
      · exact ⟨some (c.NewOverlay d1), by simp only [State.InitLevelDB, hdb, h1, h2, hc]; rfl⟩

theorem State.InitBoltDB_frame {DBase Overlay : Type} (c : Collaborators DBase Overlay)
    (s : State Overlay) : ∃ db, (s.InitBoltDB c).1 = { s with DB := db } := by
  unfold State.InitBoltDB
  split
  · exact ⟨s.DB, rfl⟩
  · exact ⟨_, rfl⟩

theorem State.InitMapDB_frame {DBase Overlay : Type} (c : Collaborators DBase Overlay)
    (s : State Overlay) : ∃ db, (s.InitMapDB c).1 = { s with DB := db } := by
  unfold State.InitMapDB
  split
  · exact ⟨s.DB, rfl⟩
  · exact ⟨_, rfl⟩

/-- The database switch changes no field but `DB`, whether it returns or panics. -/
theorem State.Init.switchDBType_frame {DBase Overlay : Type}
    (c : Collaborators DBase Overlay) (s : State Overlay) :
    ∃ db, (State.Init.switchDBType c s).state = { s with DB := db } := by
  unfold State.Init.switchDBType
  split
  · obtain ⟨db, h⟩ := State.InitLevelDB_frame c s
    refine ⟨db, ?_⟩
    rw [← h]
    split <;> simp_all [Call.state]
  · split
    · obtain ⟨db, h⟩ := State.InitBoltDB_frame c s
      refine ⟨db, ?_⟩
      rw [← h]
      split <;> simp_all [Call.state]
    · split
      · obtain ⟨db, h⟩ := State.InitMapDB_frame c s
        refine ⟨db, ?_⟩
        rw [← h]
        split <;> simp_all [Call.state]
      · exact ⟨s.DB, rfl⟩

/-- The export-data step changes no field but `DB`, whether it returns or panics. -/
theorem State.Init.exportData_frame {DBase Overlay : Type}
    (c : Collaborators DBase Overlay) (s : State Overlay) :
    ∃ db, (State.Init.exportData c s).state = { s with DB := db } := by
  unfold State.Init.exportData
  split
  · split
    · exact ⟨_, rfl⟩
    · exact ⟨_, rfl⟩
  · exact ⟨s.DB, rfl⟩

/-- The network switch leaves `serverState` alone and panics on a network
identifier other than the four it knows. -/
theorem State.Init.switchNetwork_spec {Overlay : Type} (k : Constants) (s : State Overlay) :
    (State.Init.switchNetwork k s).state.serverState = s.serverState ∧
    (s.Network ≠ "MAIN" → s.Network ≠ "TEST" → s.Network ≠ "LOCAL" → s.Network ≠ "CUSTOM" →
      State.Init.switchNetwork k s
        = .panic s (.message "Bad value for Network in factomd.conf")) := by
  unfold State.Init.switchNetwork
  constructor
  · split_ifs <;> rfl
  · intro h1 h2 h3 h4
    simp [h1, h2, h3, h4]

/-- What follows the node-mode switch in `Init` keeps `serverState`, and ends
in a panic when the network identifier is unknown. -/
theorem State.Init.after_node_mode {DBase Overlay : Type} (k : Constants)
    (c : Collaborators DBase Overlay) (s : State Overlay) :
    (((State.Init.switchDBType c s).andThen fun s _ =>
        (State.Init.exportData c s).andThen fun s _ =>
        State.Init.switchNetwork k s).state.serverState = s.serverState) ∧
    (s.Network ≠ "MAIN" → s.Network ≠ "TEST" → s.Network ≠ "LOCAL" → s.Network ≠ "CUSTOM" →
      ((State.Init.switchDBType c s).andThen fun s _ =>
        (State.Init.exportData c s).andThen fun s _ =>
        State.Init.switchNetwork k s).panicked = true) := by
  obtain ⟨db1, h1⟩ := State.Init.switchDBType_frame c s
  rcases hd : State.Init.switchDBType c s with ⟨s1, u1⟩ | ⟨s1, r1⟩
  · rw [hd] at h1
    simp only [Call.state] at h1
    obtain ⟨db2, h2⟩ := State.Init.exportData_frame c s1
    rcases he : State.Init.exportData c s1 with ⟨s2, u2⟩ | ⟨s2, r2⟩
    · rw [he] at h2
      simp only [Call.state] at h2
      have hn := State.Init.switchNetwork_spec k s2
      simp only [Call.andThen, he]
      constructor
      · rw [hn.1, h2, h1]
      · intro n1 n2 n3 n4
        have hnet : s2.Network = s.Network := by rw [h2, h1]
        rw [hn.2 (hnet ▸ n1) (hnet ▸ n2) (hnet ▸ n3) (hnet ▸ n4)]
        rfl
    · rw [he] at h2
      simp only [Call.state] at h2
      simp only [Call.andThen, he, Call.state, Call.panicked]
      constructor
      · rw [h2, h1]
      · intros; trivial
  · rw [hd] at h1
    simp only [Call.state] at h1
    simp only [Call.andThen, Call.state, Call.panicked]
    constructor
    · rw [h1]
    · intros; trivial

/-- With `NodeMode` "FULL", `Init` sets `serverState` to 0 and goes on to the
database switch. -/
theorem State.Init_of_full {DBase Overlay : Type} (k : Constants)
    (c : Collaborators DBase Overlay) (s : State Overlay) (h : s.NodeMode = "FULL") :
    State.Init k c s
      = ((State.Init.switchDBType c
            { s with FactomdVersion := k.FACTOMD_VERSION
                     ProtocolVersion := k.PROTOCOL_VERSION
                     serverState := 0 }).andThen fun s _ =>
          (State.Init.exportData c s).andThen fun s _ =>
          State.Init.switchNetwork k s) := by
  simp [State.Init, State.Init.switchNodeMode, Call.andThen, h]

/-- With `NodeMode` "SERVER", `Init` sets `serverState` to 1 and goes on to the
database switch. -/
theorem State.Init_of_server {DBase Overlay : Type} (k : Constants)
    (c : Collaborators DBase Overlay) (s : State Overlay) (h : s.NodeMode = "SERVER") :
    State.Init k c s
      = ((State.Init.switchDBType c
            { s with FactomdVersion := k.FACTOMD_VERSION
                     ProtocolVersion := k.PROTOCOL_VERSION
                     serverState := 1 }).andThen fun s _ =>
          (State.Init.exportData c s).andThen fun s _ =>
          State.Init.switchNetwork k s) := by
  simp [State.Init, State.Init.switchNodeMode, Call.andThen, h]

/-- C9. `Init` refuses to start on an unknown node mode or network identifier:
if `NodeMode` is neither "FULL" nor "SERVER", or `Network` is none of "MAIN",
"TEST", "LOCAL", "CUSTOM", `Init` ends in a panic; a bad `NodeMode` gives the
panic "Bad Node Mode (must be FULL or SERVER)" at once. With `NodeMode` "FULL"
the state `Init` leaves has `serverState = 0`, with "SERVER" it has
`serverState = 1`. -/
theorem State.Init_refuses_unknown_mode {DBase Overlay : Type} (k : Constants)
    (c : Collaborators DBase Overlay) (s : State Overlay) :
    ((s.NodeMode ≠ "FULL" ∧ s.NodeMode ≠ "SERVER") ∨
      (s.Network ≠ "MAIN" ∧ s.Network ≠ "TEST" ∧ s.Network ≠ "LOCAL" ∧ s.Network ≠ "CUSTOM") →
      (State.Init k c s).panicked = true) ∧
    (s.NodeMode ≠ "FULL" ∧ s.NodeMode ≠ "SERVER" →
      State.Init k c s
        = .panic { s with FactomdVersion := k.FACTOMD_VERSION
                          ProtocolVersion := k.PROTOCOL_VERSION }
            (.message "Bad Node Mode (must be FULL or SERVER)")) ∧
    (s.NodeMode = "FULL" → (State.Init k c s).state.serverState = 0) ∧
    (s.NodeMode = "SERVER" → (State.Init k c s).state.serverState = 1) := by
  have hbad : s.NodeMode ≠ "FULL" ∧ s.NodeMode ≠ "SERVER" →
      State.Init k c s
        = .panic { s with FactomdVersion := k.FACTOMD_VERSION
                          ProtocolVersion := k.PROTOCOL_VERSION }
            (.message "Bad Node Mode (must be FULL or SERVER)") := by
    rintro ⟨h1, h2⟩
    simp [State.Init, State.Init.switchNodeMode, Call.andThen, h1, h2]
  have hfull := State.Init_of_full k c s
  have hserver := State.Init_of_server k c s
  refine ⟨?_, hbad, ?_, ?_⟩
  · rintro (hm | ⟨n1, n2, n3, n4⟩)
    · rw [hbad hm]; rfl
    · by_cases hF : s.NodeMode = "FULL"
      · rw [hfull hF]
        exact (State.Init.after_node_mode k c _).2 n1 n2 n3 n4
      · by_cases hS : s.NodeMode = "SERVER"
        · rw [hserver hS]
          exact (State.Init.after_node_mode k c _).2 n1 n2 n3 n4
        · rw [hbad ⟨hF, hS⟩]; rfl
  · intro h
    rw [hfull h]
    exact (State.Init.after_node_mode k c _).1
  · intro h
    rw [hserver h]
    exact (State.Init.after_node_mode k c _).1

theorem State.Init_refuses_unknown_mode_witness :
    (State.Init commentConstants unreachableStorage
      { State.zero Unit with NodeMode := "SERVER", DBType := "Map", Network := "main" }).panicked
      = true ∧
    (State.Init commentConstants unreachableStorage
      { State.zero Unit with NodeMode := "FULL", DBType := "Map", Network := "LOCAL" }).state.serverState
      = 0 :=
  ⟨(State.Init_refuses_unknown_mode commentConstants unreachableStorage
      { State.zero Unit with NodeMode := "SERVER", DBType := "Map", Network := "main" }).1
      (Or.inr (by decide)),
   (State.Init_refuses_unknown_mode commentConstants unreachableStorage
      { State.zero Unit with NodeMode := "FULL", DBType := "Map", Network := "LOCAL" }).2.2.1
      rfl⟩

/-- When `InitLevelDB` returns an error, no database was open, and on every
state with the same `DB`, `LdbPath` and `Network` it returns an error again and
leaves that state as it was. -/
theorem State.InitLevelDB_error {DBase Overlay : Type} (c : Collaborators DBase Overlay)
    (s : State Overlay) (h : (s.InitLevelDB c).2 ≠ none) :
    s.DB = none ∧ ∀ s' : State Overlay, s'.DB = s.DB → s'.LdbPath = s.LdbPath →
      s'.Network = s.Network → ∃ e, s'.InitLevelDB c = (s', some e) := by
  by_cases hdb : s.DB.isSome = true
  · simp [State.InitLevelDB, hdb] at h
  · have hnone : s.DB = none := by
      cases hs : s.DB with
      | none => rfl
      | some o => simp [hs] at hdb
    refine ⟨hnone, ?_⟩
    intro s' h1' h2' h3'
    have hdb' : ¬ s'.DB.isSome = true := by rw [h1']; exact hdb
    rcases h1 : c.NewLevelMapHybridDB
        (s.LdbPath ++ "/" ++ s.Network ++ "/" ++ "factoid_level.db") false with ⟨d1, e1⟩
    rcases h2 : c.NewLevelMapHybridDB
        (s.LdbPath ++ "/" ++ s.Network ++ "/" ++ "factoid_level.db") true with ⟨d2, _ | e2⟩
    · by_cases hc : (e1.isSome || d1.isNone) = true
      · simp only [State.InitLevelDB, hdb, h1, h2, hc] at h
        exact absurd rfl h
      · simp only [State.InitLevelDB, hdb, h1, h2, hc] at h
        exact absurd rfl h
    · by_cases hc : (e1.isSome || d1.isNone) = true
      · refine ⟨e2, ?_⟩
        simp only [State.InitLevelDB, hdb', h2', h3', h1, h2, hc]
        rfl
      · simp only [State.InitLevelDB, hdb, h1, h2, hc] at h
        exact absurd rfl h

/-- Only the LevelDB initialiser can return an error, and when it does the
database switch returns normally, leaving the state (with `DB` nil) as it was;
the same holds on every state with the same `DBType`, `DB`, `LdbPath` and
`Network`. -/
theorem State.Init.switchDBType_on_error {DBase Overlay : Type}
    (c : Collaborators DBase Overlay) (s : State Overlay)
    (h : State.Init.selectedInitialiserError c s ≠ none) :
    s.DBType = "LDB" ∧ s.DB = none ∧
    ∀ s' : State Overlay, s'.DBType = s.DBType → s'.DB = s.DB → s'.LdbPath = s.LdbPath →
      s'.Network = s.Network → State.Init.switchDBType c s' = .ret s' () := by
  unfold State.Init.selectedInitialiserError at h
  by_cases hL : s.DBType = "LDB"
  · rw [if_pos hL] at h
    obtain ⟨hnone, hall⟩ := State.InitLevelDB_error c s h
    refine ⟨hL, hnone, ?_⟩
    intro s' ht hd hp hn
    obtain ⟨e, he⟩ := hall s' hd hp hn
    have hL' : s'.DBType = "LDB" := by rw [ht, hL]
    simp only [State.Init.switchDBType, hL', if_true, he]
  · rw [if_neg hL] at h
    exfalso
    apply h
    by_cases hB : s.DBType = "Bolt"
    · rw [if_pos hB]
      unfold State.InitBoltDB
      split <;> rfl
    · rw [if_neg hB]
      by_cases hM : s.DBType = "Map"
      · rw [if_pos hM]
        unfold State.InitMapDB
        split <;> rfl
      · rw [if_neg hM]

/-- C10, counterexample. With LevelDB selected and its constructor failing,
`InitLevelDB` returns an error, yet `Init` returns normally, with no database
open. -/
theorem State.Init_unreachable_storage_counterexample :
    State.Init.selectedInitialiserError unreachableStorage levelDBState
      = some (.external "cannot open database") ∧
    (State.Init commentConstants unreachableStorage levelDBState).panicked = false ∧
    (State.Init commentConstants unreachableStorage levelDBState).state.DB = none := by
  refine ⟨rfl, rfl, rfl⟩

/-- C10, amended. When the database initialiser chosen by `DBType` returns an
error (only `InitLevelDB` can), the database switch of `Init` returns normally
and leaves the state as it was, with `DB` nil: the error does not stop `Init`.
If moreover `ExportData` is false, `NodeMode` is "FULL" or "SERVER" and `Network`
is one of "MAIN", "TEST", "LOCAL", "CUSTOM", then `Init` returns normally and
leaves `DB` nil. -/
theorem State.Init_continues_on_storage_error {DBase Overlay : Type} (k : Constants)
    (c : Collaborators DBase Overlay) (s : State Overlay)
    (herr : State.Init.selectedInitialiserError c s ≠ none) :
    s.DBType = "LDB" ∧ s.DB = none ∧
    State.Init.switchDBType c s = .ret s () ∧
    (s.ExportData = false →
      s.NodeMode = "FULL" ∨ s.NodeMode = "SERVER" →
      s.Network = "MAIN" ∨ s.Network = "TEST" ∨ s.Network = "LOCAL" ∨ s.Network = "CUSTOM" →
      (State.Init k c s).panicked = false ∧ (State.Init k c s).state.DB = none) := by
  obtain ⟨hL, hnone, hall⟩ := State.Init.switchDBType_on_error c s herr
  refine ⟨hL, hnone, hall s rfl rfl rfl rfl, ?_⟩
  intro hx hm hn
  have hstep : ∀ v : Int, s.NodeMode = "FULL" ∨ s.NodeMode = "SERVER" →
      ((State.Init.switchDBType c
            { s with FactomdVersion := k.FACTOMD_VERSION
                     ProtocolVersion := k.PROTOCOL_VERSION
                     serverState := v }).andThen fun s _ =>
          (State.Init.exportData c s).andThen fun s _ =>
          State.Init.switchNetwork k s).panicked = false ∧
      ((State.Init.switchDBType c
            { s with FactomdVersion := k.FACTOMD_VERSION
                     ProtocolVersion := k.PROTOCOL_VERSION
                     serverState := v }).andThen fun s _ =>
          (State.Init.exportData c s).andThen fun s _ =>
          State.Init.switchNetwork k s).state.DB = none := by
    intro v _
    have hsw := hall { s with FactomdVersion := k.FACTOMD_VERSION
                              ProtocolVersion := k.PROTOCOL_VERSION
                              serverState := v } rfl rfl rfl rfl
    rw [hsw]
    simp only [Call.andThen, State.Init.exportData, hx, Bool.false_eq_true, if_false,
      State.Init.switchNetwork]
    rcases hn with hn | hn | hn | hn <;>
      simp [hn, Call.panicked, Call.state, hnone]
  rcases hm with hF | hS
  · rw [State.Init_of_full k c s hF]
    exact hstep 0 (Or.inl hF)
  · rw [State.Init_of_server k c s hS]
    exact hstep 1 (Or.inr hS)

theorem State.Init_continues_on_storage_error_witness :
    levelDBState.DBType = "LDB" ∧ levelDBState.DB = none ∧
    State.Init.switchDBType unreachableStorage levelDBState = .ret levelDBState () ∧
    (levelDBState.ExportData = false →
      levelDBState.NodeMode = "FULL" ∨ levelDBState.NodeMode = "SERVER" →
      levelDBState.Network = "MAIN" ∨ levelDBState.Network = "TEST" ∨
        levelDBState.Network = "LOCAL" ∨ levelDBState.Network = "CUSTOM" →
      (State.Init commentConstants unreachableStorage levelDBState).panicked = false ∧
      (State.Init commentConstants unreachableStorage levelDBState).state.DB = none) :=
  State.Init_continues_on_storage_error commentConstants unreachableStorage levelDBState
    (by decide)

/-! ## Theorems: network tags, default configuration -/

/-- When the network switch returns, the network identifier is one of the four
it knows and `NetworkNumber` is the matching constant; nothing else changes. -/
theorem State.Init.switchNetwork_ret {Overlay : Type} (k : Constants)
    (s s' : State Overlay) (h : State.Init.switchNetwork k s = .ret s' ()) :
    (s.Network = "MAIN" ∧ s' = { s with NetworkNumber := k.NETWORK_MAIN }) ∨
    (s.Network = "TEST" ∧ s' = { s with NetworkNumber := k.NETWORK_TEST }) ∨
    (s.Network = "LOCAL" ∧ s' = { s with NetworkNumber := k.NETWORK_LOCAL }) ∨
    (s.Network = "CUSTOM" ∧ s' = { s with NetworkNumber := k.NETWORK_CUSTOM }) := by
  unfold State.Init.switchNetwork at h
  split_ifs at h with h1 h2 h3 h4
  · exact Or.inl ⟨h1, by injection h with h _; exact h.symm⟩
  · exact Or.inr (Or.inl ⟨h2, by injection h with h _; exact h.symm⟩)
  · exact Or.inr (Or.inr (Or.inl ⟨h3, by injection h with h _; exact h.symm⟩))
  · exact Or.inr (Or.inr (Or.inr ⟨h4, by injection h with h _; exact h.symm⟩))

/-- When what follows the node-mode switch returns, it returned from the network
switch, run on a state with the network identifier it started with. -/
theorem State.Init.after_node_mode_ret {DBase Overlay : Type} (k : Constants)
    (c : Collaborators DBase Overlay) (s s' : State Overlay)
    (h : ((State.Init.switchDBType c s).andThen fun s _ =>
        (State.Init.exportData c s).andThen fun s _ =>
        State.Init.switchNetwork k s) = .ret s' ()) :
    ∃ s2 : State Overlay, s2.Network = s.Network ∧ s2.serverState = s.serverState ∧
      State.Init.switchNetwork k s2 = .ret s' () := by
  obtain ⟨db1, h1⟩ := State.Init.switchDBType_frame c s
  rcases hd : State.Init.switchDBType c s with ⟨s1, u1⟩ | ⟨s1, r1⟩
  · rw [hd] at h1 h
    simp only [Call.state] at h1
    obtain ⟨db2, h2⟩ := State.Init.exportData_frame c s1
    rcases he : State.Init.exportData c s1 with ⟨s2, u2⟩ | ⟨s2, r2⟩
    · rw [he] at h2
      simp only [Call.state] at h2
      simp only [Call.andThen, he] at h
      exact ⟨s2, by rw [h2, h1], by rw [h2, h1], h⟩
    · simp only [Call.andThen, he] at h
      exact absurd h (by intro hc; cases hc)
  · rw [hd] at h
    simp only [Call.andThen] at h
    exact absurd h (by intro hc; cases hc)

/-- When `Init` returns, it returned from the network switch, run on a state
with the network identifier `Init` started with. -/
theorem State.Init_ret_network {DBase Overlay : Type} (k : Constants)
    (c : Collaborators DBase Overlay) (s s' : State Overlay)
    (h : State.Init k c s = .ret s' ()) :
    ∃ s2 : State Overlay, s2.Network = s.Network ∧
      State.Init.switchNetwork k s2 = .ret s' () := by
  by_cases hF : s.NodeMode = "FULL"
  · rw [State.Init_of_full k c s hF] at h
    obtain ⟨s2, hn, _, hs⟩ := State.Init.after_node_mode_ret k c _ s' h
    exact ⟨s2, hn, hs⟩
  · by_cases hS : s.NodeMode = "SERVER"
    · rw [State.Init_of_server k c s hS] at h
      obtain ⟨s2, hn, _, hs⟩ := State.Init.after_node_mode_ret k c _ s' h
      exact ⟨s2, hn, hs⟩
    · simp [State.Init, State.Init.switchNodeMode, Call.andThen, hF, hS] at h

/-- The tag `Init` leaves in `NetworkNumber` when it returns, the tags being
the documented ones. -/
theorem State.Init_ret_tag {DBase Overlay : Type} (k : Constants)
    (hk : k.networkTagsAsDocumented)
    (c : Collaborators DBase Overlay) (s s' : State Overlay)
    (h : State.Init k c s = .ret s' ()) :
    (s.Network = "MAIN" ∧ s'.GetNetworkNumber = 0) ∨
    (s.Network = "TEST" ∧ s'.GetNetworkNumber = 1) ∨
    (s.Network = "LOCAL" ∧ s'.GetNetworkNumber = 2) ∨
    (s.Network = "CUSTOM" ∧ s'.GetNetworkNumber = 3) := by
  obtain ⟨hM, hT, hL, hC⟩ := hk
  obtain ⟨s2, hn, hs⟩ := State.Init_ret_network k c s s' h
  rcases State.Init.switchNetwork_ret k s2 s' hs with ⟨a, b⟩ | ⟨a, b⟩ | ⟨a, b⟩ | ⟨a, b⟩
  · exact Or.inl ⟨hn ▸ a, by rw [b]; exact hM⟩
  · exact Or.inr (Or.inl ⟨hn ▸ a, by rw [b]; exact hT⟩)
  · exact Or.inr (Or.inr (Or.inl ⟨hn ▸ a, by rw [b]; exact hL⟩))
  · exact Or.inr (Or.inr (Or.inr ⟨hn ▸ a, by rw [b]; exact hC⟩))

/-- C11. Network identifier to numeric tag: the network tags being MAIN = 0,
TEST = 1, LOCAL = 2, CUSTOM = 3, whenever `Init` returns the value of
`GetNetworkNumber` is 0 for "MAIN", 1 for "TEST", 2 for "LOCAL" and 3 for
"CUSTOM" (and `Network` is one of these four); of two runs of `Init` that
return, whatever their states and collaborators, the tags are equal exactly
when the network identifiers are equal. -/
theorem State.Init_network_number {DBase Overlay : Type} (k : Constants)
    (hk : k.networkTagsAsDocumented)
    (c1 c2 : Collaborators DBase Overlay) (s1 s2 s1' s2' : State Overlay)
    (h1 : State.Init k c1 s1 = .ret s1' ()) (h2 : State.Init k c2 s2 = .ret s2' ()) :
    ((s1.Network = "MAIN" ∧ s1'.GetNetworkNumber = 0) ∨
      (s1.Network = "TEST" ∧ s1'.GetNetworkNumber = 1) ∨
      (s1.Network = "LOCAL" ∧ s1'.GetNetworkNumber = 2) ∨
      (s1.Network = "CUSTOM" ∧ s1'.GetNetworkNumber = 3)) ∧
    (s1'.GetNetworkNumber = s2'.GetNetworkNumber ↔ s1.Network = s2.Network) := by
  have t1 := State.Init_ret_tag k hk c1 s1 s1' h1
  have t2 := State.Init_ret_tag k hk c2 s2 s2' h2
  refine ⟨t1, ?_⟩
  rcases t1 with ⟨a1, b1⟩ | ⟨a1, b1⟩ | ⟨a1, b1⟩ | ⟨a1, b1⟩ <;>
    rcases t2 with ⟨a2, b2⟩ | ⟨a2, b2⟩ | ⟨a2, b2⟩ | ⟨a2, b2⟩ <;>
    rw [a1, a2, b1, b2] <;> decide

theorem State.Init_network_number_witness :
    (("TEST" = "MAIN" ∧ (1 : Int) = 0) ∨ ("TEST" = "TEST" ∧ (1 : Int) = 1) ∨
      ("TEST" = "LOCAL" ∧ (1 : Int) = 2) ∨ ("TEST" = "CUSTOM" ∧ (1 : Int) = 3)) ∧
    ((1 : Int) = 3 ↔ "TEST" = "CUSTOM") :=
  State.Init_network_number commentConstants (by decide) reachableStorage unreachableStorage
    { State.zero Unit with NodeMode := "SERVER", DBType := "Map", Network := "TEST" }
    { State.zero Unit with NodeMode := "FULL", DBType := "Bolt", Network := "CUSTOM" }
    { State.zero Unit with
      NodeMode := "SERVER", DBType := "Map", Network := "TEST"
      serverState := 1, DB := some (), NetworkNumber := 1 }
    { State.zero Unit with
      NodeMode := "FULL", DBType := "Bolt", Network := "CUSTOM"
      serverState := 0, DB := some (), NetworkNumber := 3 }
    rfl rfl

/-- C13. The built-in default configuration is startable: after `LoadConfig`
with an empty filename, `NodeMode` is "SERVER", `DBType` is "Map" and `Network`
is "LOCAL"; a following `Init` returns (it reaches no panic), each of its three
switches returns, and it ends with `serverState = 1` and `NetworkNumber =
NETWORK_LOCAL`. -/
theorem State.Init_after_default_config {DBase Overlay : Type}
    (ReadConfig : String → FactomdConfig) (k : Constants)
    (c : Collaborators DBase Overlay) (s : State Overlay) :
    (s.LoadConfig ReadConfig "").NodeMode = "SERVER" ∧
    (s.LoadConfig ReadConfig "").DBType = "Map" ∧
    (s.LoadConfig ReadConfig "").Network = "LOCAL" ∧
    (State.Init k c (s.LoadConfig ReadConfig "")).panicked = false ∧
    (∃ s' : State Overlay, State.Init k c (s.LoadConfig ReadConfig "") = .ret s' () ∧
      s'.serverState = 1 ∧ s'.GetNetworkNumber = k.NETWORK_LOCAL) := by
  have hlen : ¬ ("".length > 0) := by decide
  have hmode : (s.LoadConfig ReadConfig "").NodeMode = "SERVER" := by
    simp only [State.LoadConfig, hlen, if_false]
  have hdb : (s.LoadConfig ReadConfig "").DBType = "Map" := by
    simp only [State.LoadConfig, hlen, if_false]
  have hnet : (s.LoadConfig ReadConfig "").Network = "LOCAL" := by
    simp only [State.LoadConfig, hlen, if_false]
  have hexp : (s.LoadConfig ReadConfig "").ExportData = false := by
    simp only [State.LoadConfig, hlen, if_false]
  have hex : ∃ s' : State Overlay, State.Init k c (s.LoadConfig ReadConfig "") = .ret s' () ∧
      s'.serverState = 1 ∧ s'.GetNetworkNumber = k.NETWORK_LOCAL := by
    generalize s.LoadConfig ReadConfig "" = s0 at hmode hdb hnet hexp
    rw [State.Init_of_server k c s0 hmode]
    have e1 : ¬ ("Map" = "LDB") := by decide
    have e2 : ¬ ("Map" = "Bolt") := by decide
    have e3 : ¬ ("LOCAL" = "MAIN") := by decide
    have e4 : ¬ ("LOCAL" = "TEST") := by decide
    by_cases hsome : s0.DB.isSome = true
    · simp only [State.Init.switchDBType, State.InitMapDB, hdb, e1, e2, if_false, if_true,
        hsome, Call.andThen, State.Init.exportData, hexp, Bool.false_eq_true,
        State.Init.switchNetwork, hnet, e3, e4]
      exact ⟨_, rfl, rfl, rfl⟩
    · simp only [State.Init.switchDBType, State.InitMapDB, hdb, e1, e2, if_false, if_true,
        hsome, Call.andThen, State.Init.exportData, hexp, Bool.false_eq_true,
        State.Init.switchNetwork, hnet, e3, e4]
      exact ⟨_, rfl, rfl, rfl⟩
  refine ⟨hmode, hdb, hnet, ?_, hex⟩
  obtain ⟨s', hs', _⟩ := hex
  rw [hs']
  rfl

/-- C14. Default exchange rate: after `LoadConfig` with an empty filename,
`GetFactoshisPerEC` returns 32768, which is 8 ^ 5, the value of the octal
literal `00100000`, and not the decimal 100000. -/
theorem State.default_FactoshisPerEC {Overlay : Type}
    (ReadConfig : String → FactomdConfig) (s : State Overlay) :
    (s.LoadConfig ReadConfig "").GetFactoshisPerEC = 32768 ∧
    (s.LoadConfig ReadConfig "").GetFactoshisPerEC = 8 ^ 5 ∧
    (s.LoadConfig ReadConfig "").GetFactoshisPerEC ≠ 100000 := by
  have hlen : ¬ ("".length > 0) := by decide
  have h : (s.LoadConfig ReadConfig "").GetFactoshisPerEC = 32768 := by
    simp only [State.LoadConfig, State.GetFactoshisPerEC, hlen, if_false]
  rw [h]
  exact ⟨rfl, by decide, by decide⟩

/-! ## Theorems: `State.LoadDBState` -/

/-- C12. `LoadDBState` not-found handling. If the store returns no directory
block and no error, the result is no message and no error. An error returned by
any of the four fetches is returned unchanged, with no message. If the
directory block is present and the admin block named by its entry 0 is absent,
the result is the error "ABlock not found"; if the admin block is present and
the entry-credit block named by entry 1 is absent, "ECBlock not found"; if both
are present and the factoid block named by entry 2 is absent, "FBlock not
found"; each with no message. With all four blocks present the result is the
message `NewDBStateMsg` builds, and a message is returned only then. -/
theorem State.LoadDBState_not_found
    {Overlay Hash DBlock DBEntry ABlock ECBlock FBlock Msg : Type}
    (st : BlockStore Overlay Hash DBlock DBEntry ABlock ECBlock FBlock Msg)
    (s : State Overlay) (dbheight : Fin (2 ^ 32)) :
    (st.FetchDBlockByHeight s.DB dbheight = .ok (none, none) →
      s.LoadDBState st dbheight = .ok (none, none)) ∧
    (∀ d err, st.FetchDBlockByHeight s.DB dbheight = .ok (d, some err) →
      s.LoadDBState st dbheight = .ok (none, some err)) ∧
    (∀ dblk e0, st.FetchDBlockByHeight s.DB dbheight = .ok (some dblk, none) →
      indexEntries (st.GetDBEntries dblk) 0 = .ok e0 →
      (∀ a err, st.FetchABlockByKeyMR s.DB (st.GetKeyMR e0) = .ok (a, some err) →
        s.LoadDBState st dbheight = .ok (none, some err)) ∧
      (st.FetchABlockByKeyMR s.DB (st.GetKeyMR e0) = .ok (none, none) →
        s.LoadDBState st dbheight = .ok (none, some (.errorf "ABlock not found"))) ∧
      (∀ ablk e1, st.FetchABlockByKeyMR s.DB (st.GetKeyMR e0) = .ok (some ablk, none) →
        indexEntries (st.GetDBEntries dblk) 1 = .ok e1 →
        (∀ b err, st.FetchECBlockByHash s.DB (st.GetKeyMR e1) = .ok (b, some err) →
          s.LoadDBState st dbheight = .ok (none, some err)) ∧
        (st.FetchECBlockByHash s.DB (st.GetKeyMR e1) = .ok (none, none) →
          s.LoadDBState st dbheight = .ok (none, some (.errorf "ECBlock not found"))) ∧
        (∀ ecblk e2, st.FetchECBlockByHash s.DB (st.GetKeyMR e1) = .ok (some ecblk, none) →
          indexEntries (st.GetDBEntries dblk) 2 = .ok e2 →
          (∀ b err, st.FetchFBlockByKeyMR s.DB (st.GetKeyMR e2) = .ok (b, some err) →
            s.LoadDBState st dbheight = .ok (none, some err)) ∧
          (st.FetchFBlockByKeyMR s.DB (st.GetKeyMR e2) = .ok (none, none) →
            s.LoadDBState st dbheight = .ok (none, some (.errorf "FBlock not found"))) ∧
          (∀ fblk, st.FetchFBlockByKeyMR s.DB (st.GetKeyMR e2) = .ok (some fblk, none) →
            s.LoadDBState st dbheight
              = .ok (some (st.NewDBStateMsg s dblk ablk fblk ecblk), none))))) ∧
    (∀ msg err, s.LoadDBState st dbheight = .ok (some msg, err) →
      err = none ∧
      ∃ dblk ablk ecblk fblk e0 e1 e2,
        st.FetchDBlockByHeight s.DB dbheight = .ok (some dblk, none) ∧
        indexEntries (st.GetDBEntries dblk) 0 = .ok e0 ∧
        indexEntries (st.GetDBEntries dblk) 1 = .ok e1 ∧
        indexEntries (st.GetDBEntries dblk) 2 = .ok e2 ∧
        st.FetchABlockByKeyMR s.DB (st.GetKeyMR e0) = .ok (some ablk, none) ∧
        st.FetchECBlockByHash s.DB (st.GetKeyMR e1) = .ok (some ecblk, none) ∧
        st.FetchFBlockByKeyMR s.DB (st.GetKeyMR e2) = .ok (some fblk, none) ∧
        msg = st.NewDBStateMsg s dblk ablk fblk ecblk) := by
  refine ⟨?_, ?_, ?_, ?_⟩
  · intro h
    simp only [State.LoadDBState, h]
  · intro d err h
    simp only [State.LoadDBState, h]
  · intro dblk e0 hd h0
    refine ⟨?_, ?_, ?_⟩
    · intro a err ha
      simp only [State.LoadDBState, hd, h0, ha]
    · intro ha
      simp only [State.LoadDBState, hd, h0, ha]
    · intro ablk e1 ha h1
      refine ⟨?_, ?_, ?_⟩
      · intro b err hc
        simp only [State.LoadDBState, hd, h0, ha, h1, hc]
      · intro hc
        simp only [State.LoadDBState, hd, h0, ha, h1, hc]
      · intro ecblk e2 hc h2
        refine ⟨?_, ?_, ?_⟩
        · intro b err hf
          simp only [State.LoadDBState, hd, h0, ha, h1, hc, h2, hf]
        · intro hf
          simp only [State.LoadDBState, hd, h0, ha, h1, hc, h2, hf]
        · intro fblk hf
          simp only [State.LoadDBState, hd, h0, ha, h1, hc, h2, hf]
  · intro msg err h
    unfold State.LoadDBState at h
    split at h
    · cases h
    · cases h
    · cases h
    · rename_i dblk hd
      split at h
      · cases h
      · rename_i e0 h0
        split at h
        · cases h
        · cases h
        · cases h
        · rename_i ablk ha
          split at h
          · cases h
          · rename_i e1 h1
            split at h
            · cases h
            · cases h
            · cases h
            · rename_i ecblk hc
              split at h
              · cases h
              · rename_i e2 h2
                split at h
                · cases h
                · cases h
                · cases h
                · rename_i fblk hf
                  simp only [Except.ok.injEq, Prod.mk.injEq, Option.some.injEq] at h
                  exact ⟨h.2.symm, dblk, ablk, ecblk, fblk, e0, e1, e2,
                    hd, h0, h1, h2, ha, hc, hf, h.1.symm⟩

theorem State.LoadDBState_not_found_witness :
    (State.zero Unit).LoadDBState exampleStore 9 = .ok (none, none) ∧
    (State.zero Unit).LoadDBState exampleStore 4
      = .ok (none, some (.external "read failed")) ∧
    (State.zero Unit).LoadDBState exampleStore 1
      = .ok (none, some (.errorf "ABlock not found")) ∧
    (State.zero Unit).LoadDBState exampleStore 2
      = .ok (none, some (.errorf "ECBlock not found")) ∧
    (State.zero Unit).LoadDBState exampleStore 3
      = .ok (none, some (.errorf "FBlock not found")) ∧
    (State.zero Unit).LoadDBState exampleStore 0
      = .ok (some [[1, 2, 3], [10], [30], [20]], none) :=
  ⟨(State.LoadDBState_not_found exampleStore (State.zero Unit) 9).1 rfl,
   (State.LoadDBState_not_found exampleStore (State.zero Unit) 4).2.1 none
      (.external "read failed") rfl,
   ((State.LoadDBState_not_found exampleStore (State.zero Unit) 1).2.2.1
      [7, 2, 3] 7 rfl rfl).2.1 rfl,
   (((State.LoadDBState_not_found exampleStore (State.zero Unit) 2).2.2.1
      [1, 7, 3] 1 rfl rfl).2.2 10 7 rfl rfl).2.1 rfl,
   ((((State.LoadDBState_not_found exampleStore (State.zero Unit) 3).2.2.1
      [1, 2, 7] 1 rfl rfl).2.2 10 2 rfl rfl).2.2 20 7 rfl rfl).2.1 rfl,
   ((((State.LoadDBState_not_found exampleStore (State.zero Unit) 0).2.2.1
      [1, 2, 3] 1 rfl rfl).2.2 10 2 rfl rfl).2.2 20 3 rfl rfl).2.2 30 rfl⟩

/-! ## Theorems: the hash caches of `RequestBlock` -/

/-- The decoder changes no field of the message but `Timestamp`. -/
theorem RequestBlock.UnmarshalBinaryData_frame {T H : Type} (REQUEST_BLOCK_MSG : Byte)
    (codec : TimestampCodec T) (m : RequestBlock T H) (data : Slice) :
    ∃ t : T, (RequestBlock.UnmarshalBinaryData REQUEST_BLOCK_MSG codec m data).recv
      = { m with Timestamp := t } := by
  rcases h0 : Slice.index data 0 with r | b0
  · exact ⟨m.Timestamp, by
      simp [RequestBlock.UnmarshalBinaryData, RequestBlock.UnmarshalBinaryDataBody, h0,
        recoverInto]⟩
  · by_cases hb : b0 = m.Type' REQUEST_BLOCK_MSG
    · rcases h1 : Slice.sliceFrom data 1 with r | nd
      · exact ⟨m.Timestamp, by
          simp [RequestBlock.UnmarshalBinaryData, RequestBlock.UnmarshalBinaryDataBody,
            h0, hb, h1, recoverInto]⟩
      · rcases h2 : codec.UnmarshalBinaryData m.Timestamp nd with ⟨t, ⟨nd2, _ | err⟩⟩ | ⟨t, r⟩
        · exact ⟨t, by
            simp [RequestBlock.UnmarshalBinaryData, RequestBlock.UnmarshalBinaryDataBody,
              h0, hb, h1, h2, recoverInto]⟩
        · exact ⟨t, by
            simp [RequestBlock.UnmarshalBinaryData, RequestBlock.UnmarshalBinaryDataBody,
              h0, hb, h1, h2, recoverInto]⟩
        · exact ⟨t, by
            simp [RequestBlock.UnmarshalBinaryData, RequestBlock.UnmarshalBinaryDataBody,
              h0, hb, h1, h2, recoverInto]⟩
    · exact ⟨m.Timestamp, by
        simp [RequestBlock.UnmarshalBinaryData, RequestBlock.UnmarshalBinaryDataBody, h0,
          hb, recoverInto]⟩

/-- When `GetHash` returns, the value it returns is not nil and is the one the
message then holds in its cache. -/
theorem RequestBlock.GetHash_ret {T H : Type} (REQUEST_BLOCK_MSG : Byte)
    (codec : TimestampCodec T) (Sha : Slice → H) (m m1 : RequestBlock T H) (v : Option H)
    (h : m.GetHash REQUEST_BLOCK_MSG codec Sha = .ret m1 v) :
    ∃ hv : H, v = some hv ∧ m1.hash = some hv := by
  unfold RequestBlock.GetHash at h
  split at h
  · split at h
    · cases h
    · simp only [Call.ret.injEq] at h
      obtain ⟨h1, h2⟩ := h
      subst h1
      exact ⟨_, h2.symm, rfl⟩
  · rename_i hv hm
    simp only [Call.ret.injEq] at h
    obtain ⟨h1, h2⟩ := h
    subst h1
    exact ⟨hv, by rw [← h2, hm], hm⟩

/-- With a value in the cache, `GetHash` returns it and leaves the message as
it was. -/
theorem RequestBlock.GetHash_cached {T H : Type} (REQUEST_BLOCK_MSG : Byte)
    (codec : TimestampCodec T) (Sha : Slice → H) (m : RequestBlock T H) (hv : H)
    (h : m.hash = some hv) :
    m.GetHash REQUEST_BLOCK_MSG codec Sha = .ret m (some hv) := by
  unfold RequestBlock.GetHash
  split
  · rename_i hn
    rw [hn] at h
    cases h
  · rw [h]

/-- C15. The hash caches of `RequestBlock` are never invalidated. `GetHash` and
`GetMsgHash` return a cached value as it is and compute the SHA of the
encoding only when the cache is empty; `UnmarshalBinaryData` leaves `hash` and
`MsgHash` as they were. Hence, once `GetHash` has returned a value on a
message, `GetHash` returns that same value again, also after an
`UnmarshalBinaryData` on any input (one that succeeds and changes `Timestamp`
included): the value stays the SHA of the old encoding. -/
theorem RequestBlock.hash_cache_never_invalidated {T H : Type} (REQUEST_BLOCK_MSG : Byte)
    (codec : TimestampCodec T) (Sha : Slice → H) (m : RequestBlock T H) (data : Slice) :
    (∀ hv, m.hash = some hv → m.GetHash REQUEST_BLOCK_MSG codec Sha = .ret m (some hv)) ∧
    (∀ hv, m.MsgHash = some hv →
      m.GetMsgHash REQUEST_BLOCK_MSG codec Sha = .ret m (some hv)) ∧
    (∀ d, m.hash = none → m.MarshalForSignature REQUEST_BLOCK_MSG codec = (d, none) →
      m.GetHash REQUEST_BLOCK_MSG codec Sha
        = .ret { m with hash := some (Sha d) } (some (Sha d))) ∧
    (∀ d, m.MsgHash = none → m.MarshalBinary REQUEST_BLOCK_MSG codec = (d, none) →
      m.GetMsgHash REQUEST_BLOCK_MSG codec Sha
        = .ret { m with MsgHash := some (Sha d) } (some (Sha d))) ∧
    (RequestBlock.UnmarshalBinaryData REQUEST_BLOCK_MSG codec m data).recv.hash = m.hash ∧
    (RequestBlock.UnmarshalBinaryData REQUEST_BLOCK_MSG codec m data).recv.MsgHash
      = m.MsgHash ∧
    (∀ m1 v, m.GetHash REQUEST_BLOCK_MSG codec Sha = .ret m1 v →
      m1.GetHash REQUEST_BLOCK_MSG codec Sha = .ret m1 v ∧
      RequestBlock.GetHash REQUEST_BLOCK_MSG codec Sha
          (RequestBlock.UnmarshalBinaryData REQUEST_BLOCK_MSG codec m1 data).recv
        = .ret (RequestBlock.UnmarshalBinaryData REQUEST_BLOCK_MSG codec m1 data).recv v) := by
  refine ⟨?_, ?_, ?_, ?_, ?_, ?_, ?_⟩
  · intro hv h
    exact RequestBlock.GetHash_cached REQUEST_BLOCK_MSG codec Sha m hv h
  · intro hv h
    unfold RequestBlock.GetMsgHash
    split
    · rename_i hn
      rw [hn] at h
      cases h
    · rw [h]
  · intro d hn hd
    simp only [RequestBlock.GetHash, hn, hd]
  · intro d hn hd
    simp only [RequestBlock.GetMsgHash, hn, hd]
  · obtain ⟨t, ht⟩ := RequestBlock.UnmarshalBinaryData_frame REQUEST_BLOCK_MSG codec m data
    rw [ht]
  · obtain ⟨t, ht⟩ := RequestBlock.UnmarshalBinaryData_frame REQUEST_BLOCK_MSG codec m data
    rw [ht]
  · intro m1 v h
    obtain ⟨hv, hv1, hv2⟩ := RequestBlock.GetHash_ret REQUEST_BLOCK_MSG codec Sha m m1 v h
    subst hv1
    refine ⟨RequestBlock.GetHash_cached REQUEST_BLOCK_MSG codec Sha m1 hv hv2, ?_⟩
    apply RequestBlock.GetHash_cached
    obtain ⟨t, ht⟩ := RequestBlock.UnmarshalBinaryData_frame REQUEST_BLOCK_MSG codec m1 data
    rw [ht]
    exact hv2

theorem RequestBlock.hash_cache_never_invalidated_witness :
    RequestBlock.GetHash 14 sixByteTimestamp listSha
        (⟨none, 258, none⟩ : RequestBlock (Fin (2 ^ 48)) (List Byte))
      = .ret ⟨none, 258, some [14, 0, 0, 0, 0, 1, 2]⟩ (some [14, 0, 0, 0, 0, 1, 2]) ∧
    (RequestBlock.UnmarshalBinaryData 14 sixByteTimestamp
        (⟨none, 258, some [14, 0, 0, 0, 0, 1, 2]⟩ : RequestBlock (Fin (2 ^ 48)) (List Byte))
        (some [14, 0, 0, 0, 0, 0, 7])).err = none ∧
    (RequestBlock.UnmarshalBinaryData 14 sixByteTimestamp
        (⟨none, 258, some [14, 0, 0, 0, 0, 1, 2]⟩ : RequestBlock (Fin (2 ^ 48)) (List Byte))
        (some [14, 0, 0, 0, 0, 0, 7])).recv.Timestamp = 7 ∧
    RequestBlock.GetHash 14 sixByteTimestamp listSha
        (RequestBlock.UnmarshalBinaryData 14 sixByteTimestamp
          (⟨none, 258, some [14, 0, 0, 0, 0, 1, 2]⟩ : RequestBlock (Fin (2 ^ 48)) (List Byte))
          (some [14, 0, 0, 0, 0, 0, 7])).recv
      = .ret (RequestBlock.UnmarshalBinaryData 14 sixByteTimestamp
          (⟨none, 258, some [14, 0, 0, 0, 0, 1, 2]⟩ : RequestBlock (Fin (2 ^ 48)) (List Byte))
          (some [14, 0, 0, 0, 0, 0, 7])).recv (some [14, 0, 0, 0, 0, 1, 2]) ∧
    listSha ((RequestBlock.UnmarshalBinaryData 14 sixByteTimestamp
          (⟨none, 258, some [14, 0, 0, 0, 0, 1, 2]⟩ : RequestBlock (Fin (2 ^ 48)) (List Byte))
          (some [14, 0, 0, 0, 0, 0, 7])).recv.MarshalForSignature 14 sixByteTimestamp).1
      = [14, 0, 0, 0, 0, 0, 7] :=
  ⟨(RequestBlock.hash_cache_never_invalidated 14 sixByteTimestamp listSha
      (⟨none, 258, none⟩ : RequestBlock (Fin (2 ^ 48)) (List Byte))
      (some [14, 0, 0, 0, 0, 0, 7])).2.2.1 (some [14, 0, 0, 0, 0, 1, 2]) rfl rfl,
   rfl, rfl,
   ((RequestBlock.hash_cache_never_invalidated 14 sixByteTimestamp listSha
      (⟨none, 258, none⟩ : RequestBlock (Fin (2 ^ 48)) (List Byte))
      (some [14, 0, 0, 0, 0, 0, 7])).2.2.2.2.2.2
        ⟨none, 258, some [14, 0, 0, 0, 0, 1, 2]⟩ (some [14, 0, 0, 0, 0, 1, 2]) rfl).2,
   rfl⟩

end Factomd
